import Mathlib

/-!
# Verification of the ot-rfsim virtual-time radio platform

Shallow embedding of the virtual-time clock, alarms, simulation-event builders
and the two-level radio state machine of the ot-ns `ot-rfsim` platform
(`src/ot-rfsim/src/alarm.c`, `event-sim.c`, `radio.c`, `radio.h`,
`radio-parameters.h`), together with theorems settling the specification
claims about them.

Modelling conventions:
* C `uint64_t`/`int64_t` virtual-time quantities are modelled as `Int`/`Nat`.
  The 64-bit microsecond counter would need about 580 000 years of virtual
  time to wrap, so 64-bit wraparound is not modelled; 32-bit wraparound of
  the millisecond/microsecond timer views, where the code explicitly relies
  on it, is modelled with explicit `% 2 ^ 32`.
* C division of `int64_t` truncates toward zero; it is modelled by
  `cdivTrunc` below.
* Fallible radio API calls return their `otError` code next to the updated
  state; up-calls into the stack and events sent to the simulator are
  collected in an output list.
-/

namespace OtRfsim

/-! ## Virtual clock and alarms (alarm.c) -/

def US_PER_MS : Nat := 1000

def PS_PER_US : Nat := 1000000

def INT64_MAX : Nat := 2 ^ 63 - 1

/-- The static state of `alarm.c`: the virtual-time counter `sNow` (µs), the
clock-drift setting (ppm), the accumulated picosecond drift remainder, and the
two 32-bit alarms. -/
structure AlarmState where
  sNow : Int
  sClockDriftPpm : Int
  sDriftPicoSec : Int
  sIsMsRunning : Bool
  sMsAlarm : Nat
  sIsUsRunning : Bool
  sUsAlarm : Nat
deriving Repr, DecidableEq

/-- `platformAlarmInit` together with the zero-initialised statics. -/
def platformAlarmInit : AlarmState :=
  { sNow := 0, sClockDriftPpm := 0, sDriftPicoSec := 0,
    sIsMsRunning := false, sMsAlarm := 0, sIsUsRunning := false, sUsAlarm := 0 }

def platformAlarmGetNow (s : AlarmState) : Int := s.sNow

/-- C `int64_t` division truncates toward zero (the denominator is a positive
constant everywhere in the embedded code). -/
def cdivTrunc (a : Int) (b : Nat) : Int :=
  if 0 ≤ a then ((a.toNat / b : Nat) : Int)
  else -(((((-a).toNat / b : Nat)) : Int))

/-- `platformAlarmAdvanceNow`: add the delta to `sNow`, accumulate
`drift · delta` picoseconds, and flush whole microseconds (of either sign)
from the remainder into `sNow`. -/
def platformAlarmAdvanceNow (s : AlarmState) (aDelta : Nat) : AlarmState :=
  let now1 : Int := s.sNow + (aDelta : Int)
  let ps : Int := s.sDriftPicoSec + s.sClockDriftPpm * (aDelta : Int)
  if (PS_PER_US : Int) ≤ ps ∨ ps ≤ -(PS_PER_US : Int) then
    let adjust := cdivTrunc ps PS_PER_US
    { s with sNow := now1 + adjust, sDriftPicoSec := ps - adjust * (PS_PER_US : Int) }
  else
    { s with sNow := now1, sDriftPicoSec := ps }

def platformAlarmGetClockDrift (s : AlarmState) : Int := s.sClockDriftPpm

def platformAlarmSetClockDrift (s : AlarmState) (aDrift : Int) : AlarmState :=
  { s with sClockDriftPpm := aDrift }

/-- `otPlatAlarmMilliGetNow`: 32-bit millisecond view of the counter. -/
def otPlatAlarmMilliGetNow (s : AlarmState) : Nat :=
  (s.sNow.toNat / US_PER_MS) % 2 ^ 32

/-- `otPlatAlarmMicroGetNow`: 32-bit microsecond view of the counter. -/
def otPlatAlarmMicroGetNow (s : AlarmState) : Nat :=
  s.sNow.toNat % 2 ^ 32

def otPlatAlarmMilliStartAt (s : AlarmState) (aT0 aDt : Nat) : AlarmState :=
  { s with sMsAlarm := (aT0 + aDt) % 2 ^ 32, sIsMsRunning := true }

def otPlatAlarmMilliStop (s : AlarmState) : AlarmState :=
  { s with sIsMsRunning := false }

def otPlatAlarmMicroStartAt (s : AlarmState) (aT0 aDt : Nat) : AlarmState :=
  { s with sUsAlarm := (aT0 + aDt) % 2 ^ 32, sIsUsRunning := true }

def otPlatAlarmMicroStop (s : AlarmState) : AlarmState :=
  { s with sIsUsRunning := false }

/-- `(int32_t)(a - b)` on `uint32_t` operands: wraparound difference
reinterpreted as a signed 32-bit value. -/
def signedDiff32 (a b : Nat) : Int :=
  let d : Nat := (a % 2 ^ 32 + 2 ^ 32 - b % 2 ^ 32) % 2 ^ 32
  if d < 2 ^ 31 then (d : Int) else (d : Int) - 2 ^ 32

/-- `platformAlarmGetNext`: remaining microseconds until the soonest armed
ms/µs alarm, `INT64_MAX` when neither is armed, clamped to `0` when an armed
alarm is overdue. The usec timer build option is enabled
(`OPENTHREAD_CONFIG_PLATFORM_USEC_TIMER_ENABLE 1`). -/
def platformAlarmGetNext (s : AlarmState) : Nat :=
  let remaining := INT64_MAX
  let remaining :=
    if s.sIsMsRunning then
      let milli := signedDiff32 s.sMsAlarm (otPlatAlarmMilliGetNow s)
      if milli < 0 then 0 else milli.toNat * US_PER_MS
    else remaining
  if s.sIsUsRunning then
    let micro := signedDiff32 s.sUsAlarm (otPlatAlarmMicroGetNow s)
    if micro < 0 then 0
    else if remaining > micro.toNat then micro.toNat else remaining
  else remaining

/-- Folding a sequence of `platformAlarmAdvanceNow` deltas over a state. -/
def advanceList (s : AlarmState) (ds : List Nat) : AlarmState :=
  ds.foldl platformAlarmAdvanceNow s

/-! ### Clock invariants and monotonicity -/

/-- The picosecond drift remainder always stays strictly within one
microsecond of either sign. -/
def AlarmInv (s : AlarmState) : Prop :=
  -(PS_PER_US : Int) < s.sDriftPicoSec ∧ s.sDriftPicoSec < (PS_PER_US : Int)

/-! ### The next-deadline computation (claim C4 support) -/

/-- Remaining microseconds contributed by the millisecond alarm in
`platformAlarmGetNext` (`INT64_MAX` when it is not armed). -/
def msRemainingUs (s : AlarmState) : Nat :=
  if s.sIsMsRunning then
    (if signedDiff32 s.sMsAlarm (otPlatAlarmMilliGetNow s) < 0 then 0
     else (signedDiff32 s.sMsAlarm (otPlatAlarmMilliGetNow s)).toNat * US_PER_MS)
  else INT64_MAX

/-- Remaining microseconds contributed by the microsecond alarm in
`platformAlarmGetNext` (`INT64_MAX` when it is not armed). -/
def usRemainingUs (s : AlarmState) : Nat :=
  if s.sIsUsRunning then
    (if signedDiff32 s.sUsAlarm (otPlatAlarmMicroGetNow s) < 0 then 0
     else (signedDiff32 s.sUsAlarm (otPlatAlarmMicroGetNow s)).toNat)
  else INT64_MAX

/-! ## Radio state machine (radio.c, radio.h, radio-parameters.h) -/

def FAILSAFE_TIME_US : Nat := 1

def UNDEFINED_TIME_US : Nat := 0

def OT_RADIO_SYMBOL_TIME : Nat := 16

def OT_RADIO_SYMBOLS_PER_OCTET : Nat := 2

def OT_RADIO_LIFS_TIME_US : Nat := 40 * OT_RADIO_SYMBOL_TIME

def OT_RADIO_SIFS_TIME_US : Nat := 12 * OT_RADIO_SYMBOL_TIME

def OT_RADIO_AIFS_TIME_US : Nat := 12 * OT_RADIO_SYMBOL_TIME

def OT_RADIO_CCA_TIME_US : Nat := 8 * OT_RADIO_SYMBOL_TIME

def OT_RADIO_MAX_ACK_WAIT_US : Nat := OT_RADIO_AIFS_TIME_US + 10 * OT_RADIO_SYMBOL_TIME

def OT_RADIO_aMaxSifsFrameSize : Nat := 18

def OT_RADIO_SHR_DURATION_US : Nat := 5 * OT_RADIO_SYMBOLS_PER_OCTET * OT_RADIO_SYMBOL_TIME

def OT_RADIO_WIFI_SLOT_TIME_US : Nat := 9

def RFSIM_TURNAROUND_TIME_US : Nat := 40

def RFSIM_STARTUP_TIME_US : Nat := 140

def RFSIM_RAMPUP_TIME_US : Nat := 40

def RFSIM_CCA_ED_THRESHOLD_DEFAULT_DBM : Int := -75

/-- `OT_RADIO_RSSI_INVALID` from the OpenThread radio platform API. -/
def OT_RADIO_RSSI_INVALID : Int := 127

/-- The fine radio sub-states of `radio.h`. -/
inductive RadioSubState where
  | READY | IFS_WAIT | TX_CCA | TX_CCA_TO_TX | TX_FRAME_ONGOING | TX_TX_TO_RX
  | TX_TX_TO_AIFS | TX_AIFS_WAIT | TX_ACK_RX_ONGOING | RX_FRAME_ONGOING
  | RX_AIFS_WAIT | RX_ACK_TX_ONGOING | RX_TX_TO_RX | RX_ENERGY_SCAN | STARTUP
  | INVALID | AWAIT_CCA | CW_BACKOFF
deriving Repr, DecidableEq

/-- The coarse OpenThread radio states (`Invalid` is the sentinel used only
to initialise `sLastReportedState`). -/
inductive OtRadioState where
  | Disabled | Sleep | Receive | Transmit | Invalid
deriving Repr, DecidableEq

/-- The OpenThread error codes surfaced by the embedded radio code. -/
inductive OtError where
  | NONE | CHANNEL_ACCESS_FAILURE | NO_ACK | BUSY | INVALID_STATE | ABORT
  | FCS_ERR
deriving Repr, DecidableEq

/-- Observable view of a 15.4 frame. The MAC frame parser/builder
(`utils/mac_frame.h`) is an external collaborator (spec §1), so a frame is
modelled by the results of the accessor functions the radio code calls on it:
`otMacFrameIsAck`, `otMacFrameIsAckRequested`, `otMacFrameGetSequence`,
`otMacFrameDoesAddrMatch` (evaluated against this radio's addresses), the
channel, the PSDU length, and the RX metadata the radio fills in. -/
structure Frame where
  mChannel : Nat
  mLength : Nat
  mSequence : Nat
  mIsAck : Bool
  mIsAckRequested : Bool
  mAddressedToMe : Bool
  mRssi : Int
  mTimestamp : Nat
deriving Repr, DecidableEq

/-- Up-calls into the stack and events emitted toward the simulator during a
radio-code invocation, in order of occurrence. `commStart` carries `true`
when the transmitted buffer is `sAckMessage` and `false` when it is
`sTransmitMessage`. -/
inductive RadioOutput where
  | txDone (frame : Frame) (ackFrame : Option Frame) (error : OtError)
  | rxDone (frame : Option Frame) (error : OtError)
  | chanSample (channel : Nat) (durationUs : Nat)
  | commStart (isAckBuffer : Bool) (channel : Nat) (frame : Frame)
  | energyScanDone (rssi : Int)
deriving Repr, DecidableEq

/-- The static state of `radio.c` that the embedded operations read or
write, together with the current virtual time (`otPlatTimeGet()` is the
alarm counter; it is carried here explicitly because the radio code only
reads it). -/
structure RadioState where
  time : Nat
  sState : OtRadioState
  sSubState : RadioSubState
  sNextRadioEventTime : Nat
  sTurnaroundTimeUs : Nat
  sTxWait : Bool
  sDelaySleep : Bool
  sPromiscuous : Bool
  sCcaEdThresh : Int
  sRxSensitivity : Int
  sCslAccuracy : Nat
  sCslUncertainty : Nat
  sTxInterfererLevel : Nat
  sCurrentChannel : Nat
  sOngoingOperationChannel : Nat
  sReceiveTimestamp : Nat
  sTransmitFrame : Frame
  sReceiveFrame : Frame
  sAckFrame : Frame
  sLastTxError : OtError
  sLastTxDuration : Nat
  sEnergyScanning : Bool
  sEnergyScanEndTime : Nat
  sEnergyScanResult : Int
  sTxPower : Int
  sLastReportedState : OtRadioState
  sLastReportedSubState : RadioSubState
  sLastReportedChannel : Nat
  sLastReportedRadioEventTime : Nat
  sLastReportedRxSensitivity : Int
deriving Repr, DecidableEq

/-- `(aTimeA - aTimeB) < (1U << 31)` on `uint32_t` operands. -/
def IsTimeAfterOrEqual (aTimeA aTimeB : Nat) : Bool :=
  (aTimeA % 2 ^ 32 + 2 ^ 32 - aTimeB % 2 ^ 32) % 2 ^ 32 < 2 ^ 31

/-- `setRadioSubState`: records the sub-state and its absolute deadline;
`UNDEFINED_TIME_US` (0) encodes the absence of a timed deadline. -/
def setRadioSubState (s : RadioState) (aState : RadioSubState) (timeToRemainInState : Nat) :
    RadioState :=
  if timeToRemainInState = UNDEFINED_TIME_US then
    { s with sNextRadioEventTime := UNDEFINED_TIME_US, sSubState := aState }
  else
    { s with sNextRadioEventTime := s.time + timeToRemainInState, sSubState := aState }

/-- `setRadioState`: switching to `Disabled` also resets the sub-state to
`STARTUP` with the full startup time. -/
def setRadioState (s : RadioState) (aState : OtRadioState) : RadioState :=
  let s :=
    if aState ≠ s.sState ∧ aState = OtRadioState.Disabled then
      setRadioSubState s RadioSubState.STARTUP RFSIM_STARTUP_TIME_US
    else s
  { s with sState := aState }

/-- `signalRadioTxDone`: wraps `otPlatRadioTxDone`, first moving a
transmitting radio back to `Receive`; suppressed entirely in interferer
mode. -/
def signalRadioTxDone (s : RadioState) (aFrame : Frame) (aAckFrame : Option Frame)
    (aError : OtError) : RadioState × List RadioOutput :=
  if s.sTxInterfererLevel > 0 then (s, [])
  else
    let s := if s.sState = OtRadioState.Transmit then setRadioState s OtRadioState.Receive else s
    (s, [RadioOutput.txDone aFrame aAckFrame aError])

/-- `applyRadioDelayedSleep`: perform a sleep request that was deferred
during an RX sequence. -/
def applyRadioDelayedSleep (s : RadioState) : RadioState :=
  if s.sDelaySleep then { setRadioState s OtRadioState.Sleep with sDelaySleep := false }
  else s

/-- `startCcaForTransmission`: mark the TX sequence as outstanding and ask
the simulator for a channel sample. -/
def startCcaForTransmission (s : RadioState) (ccaDurationUs : Nat) :
    RadioState × List RadioOutput :=
  ({ s with sTxWait := true, sLastTxError := OtError.NONE },
   [RadioOutput.chanSample s.sTransmitFrame.mChannel ccaDurationUs])

/-- `platformRadioIsTransmitPending`. -/
def platformRadioIsTransmitPending (s : RadioState) : Bool :=
  s.sState = OtRadioState.Transmit ∧ ¬s.sTxWait

/-- `platformRadioIsBusy`. -/
def platformRadioIsBusy (s : RadioState) : Bool :=
  (s.sState = OtRadioState.Transmit ∨ s.sState = OtRadioState.Receive) ∧
    s.sSubState ≠ RadioSubState.READY

/-- `otPlatRadioSleep`. -/
def otPlatRadioSleep (s : RadioState) : OtError × RadioState :=
  if s.sSubState = RadioSubState.RX_FRAME_ONGOING ∨
      s.sSubState = RadioSubState.RX_ACK_TX_ONGOING ∨
      s.sSubState = RadioSubState.RX_AIFS_WAIT then
    (OtError.BUSY, { s with sDelaySleep := true })
  else if s.sState = OtRadioState.Sleep ∨ s.sState = OtRadioState.Receive then
    (OtError.NONE, setRadioState { s with sDelaySleep := false } OtRadioState.Sleep)
  else
    (OtError.INVALID_STATE, s)

/-- `otPlatRadioReceive`. -/
def otPlatRadioReceive (s : RadioState) (aChannel : Nat) : OtError × RadioState :=
  if s.sState ≠ OtRadioState.Disabled then
    let s :=
      if s.sState = OtRadioState.Sleep ∧ s.sSubState ≠ RadioSubState.STARTUP then
        setRadioSubState s RadioSubState.STARTUP RFSIM_RAMPUP_TIME_US
      else s
    (OtError.NONE,
     setRadioState
       { s with sTxWait := false, sDelaySleep := false,
                sReceiveFrame := { s.sReceiveFrame with mChannel := aChannel },
                sCurrentChannel := aChannel }
       OtRadioState.Receive)
  else (OtError.INVALID_STATE, s)

/-- `otPlatRadioTransmit` (the frame data was already placed in the transmit
buffer via `otPlatRadioGetTransmitBuffer`). -/
def otPlatRadioTransmit (s : RadioState) : OtError × RadioState :=
  if s.sState = OtRadioState.Receive then
    (OtError.NONE,
     setRadioState
       { s with sDelaySleep := false, sCurrentChannel := s.sTransmitFrame.mChannel }
       OtRadioState.Transmit)
  else (OtError.INVALID_STATE, s)

/-- `(6 + aFrame->mLength) * OT_RADIO_SYMBOLS_PER_OCTET * OT_RADIO_SYMBOL_TIME`. -/
def frameDurationUs (aFrameLength : Nat) : Nat :=
  (6 + aFrameLength) * OT_RADIO_SYMBOLS_PER_OCTET * OT_RADIO_SYMBOL_TIME

/-- `radioTransmit`: record the ongoing-TX metadata and send
`RADIO_COMM_START` with the message bytes. `isAckBuffer` records which of the
two message buffers the C code passed. -/
def radioTransmit (s : RadioState) (isAckBuffer : Bool) (aFrame : Frame) :
    RadioState × List RadioOutput :=
  let dur := frameDurationUs aFrame.mLength
  ({ s with sLastTxError := OtError.NONE, sLastTxDuration := dur },
   [RadioOutput.commStart isAckBuffer aFrame.mChannel aFrame])

/-- Abstract model of the external MAC-utility acknowledgment builders
(`otMacFrameGenerateImmAck` / `otMacFrameGenerateEnhAck`, out of scope per
spec §1): the generated ACK echoes the received frame's sequence number. -/
def macGenerateAck (aRxFrame : Frame) : Frame :=
  { mChannel := aRxFrame.mChannel, mLength := 5, mSequence := aRxFrame.mSequence,
    mIsAck := true, mIsAckRequested := false, mAddressedToMe := false,
    mRssi := 0, mTimestamp := 0 }

/-- `radioPrepareAck`: rebuild the ACK frame for the received frame (the
frame-pending computation, IEs and security are external MAC utilities). -/
def radioPrepareAck (s : RadioState) : RadioState :=
  { s with sAckFrame := macGenerateAck s.sReceiveFrame }

/-- `radioSendMessage`: CSL IE insertion, MAC security and the CRC run on
the byte-level message (modelled separately, see `radioComputeCrc`); then the
frame is transmitted from the `sTransmitMessage` buffer. -/
def radioSendMessage (s : RadioState) : RadioState × List RadioOutput :=
  radioTransmit s false s.sTransmitFrame

/-- `radioProcessFrame`: deliver a received (non-ACK or promiscuous) frame to
the stack, preparing an ACK when one is required; in promiscuous mode no ACK
is ever prepared and the address filter is skipped. -/
def radioProcessFrame (s : RadioState) (aError : OtError) : RadioState × List RadioOutput :=
  if s.sPromiscuous then
    (s, [RadioOutput.rxDone (if aError = OtError.NONE then some s.sReceiveFrame else none) aError])
  else if ¬s.sReceiveFrame.mAddressedToMe then
    (s, [])
  else
    let s :=
      if s.sReceiveFrame.mIsAckRequested ∧ aError = OtError.NONE then radioPrepareAck s else s
    (s, [RadioOutput.rxDone (if aError = OtError.NONE then some s.sReceiveFrame else none) aError])

/-- `radioReceive`: a complete frame (or the awaited ACK) has been received. -/
def radioReceive (s : RadioState) (aError : OtError) : RadioState × List RadioOutput :=
  let isAck := s.sReceiveFrame.mIsAck
  if ¬(s.sState = OtRadioState.Receive ∨ s.sState = OtRadioState.Transmit) then (s, [])
  else
    let s := { s with sReceiveFrame := { s.sReceiveFrame with mTimestamp := s.sReceiveTimestamp } }
    if s.sTxWait ∧ s.sTransmitFrame.mIsAckRequested then
      let isAwaitedAckReceived :=
        isAck ∧ aError = OtError.NONE ∧
          s.sReceiveFrame.mSequence = s.sTransmitFrame.mSequence
      let txDoneError := if isAwaitedAckReceived then OtError.NONE else OtError.NO_ACK
      let s := { s with sTxWait := false }
      signalRadioTxDone s s.sTransmitFrame (if isAck then some s.sReceiveFrame else none)
        txDoneError
    else if ¬isAck ∨ s.sPromiscuous then
      radioProcessFrame s aError
    else (s, [])

/-- `platformRadioRxStart`: the simulator announces that a frame starts
arriving on the listened channel. -/
def platformRadioRxStart (s : RadioState) (aChannel : Nat) (aDurationUs : Nat)
    (aError : OtError) : RadioState :=
  if s.sOngoingOperationChannel ≠ aChannel then s
  else if ¬(s.sState = OtRadioState.Receive ∨ s.sState = OtRadioState.Transmit) then s
  else if ¬(s.sSubState = RadioSubState.READY ∨ s.sSubState = RadioSubState.IFS_WAIT ∨
      s.sSubState = RadioSubState.TX_AIFS_WAIT) then s
  else if aError ≠ OtError.NONE then s
  else
    let s :=
      if s.sSubState = RadioSubState.TX_AIFS_WAIT then
        setRadioSubState s RadioSubState.TX_ACK_RX_ONGOING (aDurationUs + FAILSAFE_TIME_US)
      else
        setRadioSubState s RadioSubState.RX_FRAME_ONGOING (aDurationUs + FAILSAFE_TIME_US)
    { s with sReceiveTimestamp := s.time + OT_RADIO_SHR_DURATION_US }

/-- `platformRadioRxDone`: the simulator delivers the bytes of the frame
whose reception was ongoing. -/
def platformRadioRxDone (s : RadioState) (aFrame : Frame) (aRxPower : Int)
    (aError : OtError) : RadioState × List RadioOutput :=
  if ¬(s.sSubState = RadioSubState.RX_FRAME_ONGOING ∨
      s.sSubState = RadioSubState.TX_ACK_RX_ONGOING) then (s, [])
  else
    let s := { s with sReceiveFrame := { aFrame with mRssi := aRxPower } }
    let isAck := s.sReceiveFrame.mIsAck
    let isAckRequested := s.sReceiveFrame.mIsAckRequested
    let isAddressedToMe := s.sReceiveFrame.mAddressedToMe
    let s :=
      if s.sSubState = RadioSubState.RX_FRAME_ONGOING ∧ isAckRequested ∧ ¬isAck ∧
          isAddressedToMe ∧ aError = OtError.NONE then
        setRadioSubState s RadioSubState.RX_AIFS_WAIT OT_RADIO_AIFS_TIME_US
      else if s.sSubState = RadioSubState.RX_FRAME_ONGOING then
        applyRadioDelayedSleep (setRadioSubState s RadioSubState.IFS_WAIT s.sTurnaroundTimeUs)
      else
        let ifsTime :=
          if s.sTransmitFrame.mLength > OT_RADIO_aMaxSifsFrameSize then OT_RADIO_LIFS_TIME_US
          else OT_RADIO_SIFS_TIME_US
        setRadioSubState s RadioSubState.IFS_WAIT ifsTime
    radioReceive s aError

/-- `platformRadioCcaDone`: the simulator answers the channel-sample request
issued for CCA. -/
def platformRadioCcaDone (s : RadioState) (aChannel : Nat) (aPower : Int) :
    RadioState × List RadioOutput :=
  if aChannel ≠ s.sTransmitFrame.mChannel then (s, [])
  else if s.sSubState ≠ RadioSubState.TX_CCA then (s, [])
  else if aPower < s.sCcaEdThresh ∨ aPower = OT_RADIO_RSSI_INVALID then
    (setRadioSubState s RadioSubState.TX_CCA_TO_TX s.sTurnaroundTimeUs, [])
  else
    let s := { s with sTxWait := false, sLastTxError := OtError.CHANNEL_ACCESS_FAILURE }
    if s.sTxInterfererLevel = 0 then
      let s := setRadioSubState s RadioSubState.READY UNDEFINED_TIME_US
      signalRadioTxDone s s.sTransmitFrame none OtError.CHANNEL_ACCESS_FAILURE
    else
      (setRadioSubState s RadioSubState.READY 1, [])

/-- `platformRadioTxDone`: the simulator signals the end of this node's own
transmission. -/
def platformRadioTxDone (s : RadioState) (aError : OtError) :
    RadioState × List RadioOutput :=
  if s.sSubState = RadioSubState.RX_ACK_TX_ONGOING then
    (setRadioSubState s RadioSubState.RX_TX_TO_RX s.sTurnaroundTimeUs, [])
  else if s.sSubState = RadioSubState.TX_FRAME_ONGOING then
    if ¬s.sTransmitFrame.mIsAckRequested ∨ aError ≠ OtError.NONE then
      let s := setRadioSubState s RadioSubState.TX_TX_TO_RX s.sTurnaroundTimeUs
      if s.sTxInterfererLevel = 0 then signalRadioTxDone s s.sTransmitFrame none aError
      else (s, [])
    else
      (setRadioSubState s RadioSubState.TX_TX_TO_AIFS s.sTurnaroundTimeUs, [])
  else (s, [])

/-- The preemption step at the top of `platformRadioProcess`: a pending
transmission while the radio is busy with an RX sequence is failed
immediately with `CHANNEL_ACCESS_FAILURE` (no CCA request is ever issued for
it). -/
def radioProcessPreempt (s : RadioState) : RadioState × List RadioOutput :=
  if platformRadioIsTransmitPending s ∧
      (s.sSubState = RadioSubState.RX_FRAME_ONGOING ∨
       s.sSubState = RadioSubState.RX_ACK_TX_ONGOING ∨
       s.sSubState = RadioSubState.RX_AIFS_WAIT) then
    signalRadioTxDone s s.sTransmitFrame none OtError.CHANNEL_ACCESS_FAILURE
  else (s, [])

/-- The timer-driven sub-state switch of `platformRadioProcess`: when the
recorded deadline has been reached, the sub-state takes its timer
transition. The `INVALID` sub-state is an `OT_ASSERT(false)` (fatal) in the
C code and is left unchanged here. -/
def radioProcessTimer (s : RadioState) : RadioState × List RadioOutput :=
  if s.time ≥ s.sNextRadioEventTime then
    let ifsTime :=
      if s.sTransmitFrame.mLength > OT_RADIO_aMaxSifsFrameSize then OT_RADIO_LIFS_TIME_US
      else OT_RADIO_SIFS_TIME_US
    match s.sSubState with
    | RadioSubState.STARTUP =>
        (setRadioSubState s RadioSubState.READY UNDEFINED_TIME_US, [])
    | RadioSubState.READY =>
        let s := { s with sOngoingOperationChannel := s.sCurrentChannel }
        if platformRadioIsTransmitPending s then
          let s :=
            setRadioSubState s RadioSubState.TX_CCA (OT_RADIO_CCA_TIME_US + FAILSAFE_TIME_US)
          startCcaForTransmission s OT_RADIO_CCA_TIME_US
        else (s, [])
    | RadioSubState.TX_CCA =>
        let step := signalRadioTxDone s s.sTransmitFrame none OtError.CHANNEL_ACCESS_FAILURE
        let s := setRadioSubState step.1 RadioSubState.READY UNDEFINED_TIME_US
        ({ s with sTxWait := false }, step.2)
    | RadioSubState.TX_CCA_TO_TX =>
        let step := radioSendMessage s
        (setRadioSubState step.1 RadioSubState.TX_FRAME_ONGOING
           (step.1.sLastTxDuration + FAILSAFE_TIME_US),
         step.2)
    | RadioSubState.TX_FRAME_ONGOING =>
        (setRadioSubState s RadioSubState.TX_TX_TO_RX s.sTurnaroundTimeUs, [])
    | RadioSubState.TX_TX_TO_RX =>
        (setRadioSubState s RadioSubState.IFS_WAIT (ifsTime - s.sTurnaroundTimeUs), [])
    | RadioSubState.TX_TX_TO_AIFS =>
        (setRadioSubState s RadioSubState.TX_AIFS_WAIT OT_RADIO_MAX_ACK_WAIT_US, [])
    | RadioSubState.TX_AIFS_WAIT =>
        let s := setRadioSubState s RadioSubState.READY UNDEFINED_TIME_US
        let step := signalRadioTxDone s s.sTransmitFrame none OtError.NO_ACK
        ({ step.1 with sTxWait := false }, step.2)
    | RadioSubState.TX_ACK_RX_ONGOING =>
        let s := setRadioSubState s RadioSubState.IFS_WAIT ifsTime
        signalRadioTxDone s s.sTransmitFrame none OtError.NO_ACK
    | RadioSubState.IFS_WAIT =>
        ({ setRadioSubState s RadioSubState.READY UNDEFINED_TIME_US with sTxWait := false },
         [])
    | RadioSubState.RX_FRAME_ONGOING =>
        (setRadioSubState s RadioSubState.IFS_WAIT s.sTurnaroundTimeUs, [])
    | RadioSubState.RX_AIFS_WAIT =>
        let s := radioPrepareAck s
        let step := radioTransmit s true s.sAckFrame
        (setRadioSubState step.1 RadioSubState.RX_ACK_TX_ONGOING step.1.sLastTxDuration,
         step.2)
    | RadioSubState.RX_ACK_TX_ONGOING =>
        (applyRadioDelayedSleep (setRadioSubState s RadioSubState.RX_TX_TO_RX s.sTurnaroundTimeUs),
         [])
    | RadioSubState.RX_TX_TO_RX =>
        (setRadioSubState s RadioSubState.IFS_WAIT s.sTurnaroundTimeUs, [])
    | RadioSubState.RX_ENERGY_SCAN =>
        if IsTimeAfterOrEqual ((s.time / US_PER_MS) % 2 ^ 32) s.sEnergyScanEndTime then
          ({ setRadioSubState s RadioSubState.READY UNDEFINED_TIME_US with
               sEnergyScanning := false },
           [RadioOutput.energyScanDone s.sEnergyScanResult])
        else (s, [])
    | RadioSubState.CW_BACKOFF => (setRadioSubState s RadioSubState.READY 0, [])
    | RadioSubState.AWAIT_CCA => (setRadioSubState s RadioSubState.READY 0, [])
    | RadioSubState.INVALID => (s, [])
  else (s, [])

/-- `platformRadioProcess`: the per-iteration processing of the ordinary
radio FSM (bypassed entirely in interferer mode): the preemption step
followed by the timer-driven sub-state switch, with their emitted outputs in
order. -/
def platformRadioProcess (s : RadioState) : RadioState × List RadioOutput :=
  if s.sTxInterfererLevel > 0 then (s, [])
  else
    let p := radioProcessPreempt s
    let t := radioProcessTimer p.1
    (t.1, p.2 ++ t.2)

/-! ## Simulation-event builders (event-sim.c) -/

def OT_SIM_EVENT_ALARM_FIRED : Nat := 0

def OT_SIM_EVENT_UART_WRITE : Nat := 2

def OT_SIM_EVENT_OTNS_STATUS_PUSH : Nat := 5

def OT_SIM_EVENT_RADIO_COMM_START : Nat := 6

def OT_SIM_EVENT_RADIO_CHAN_SAMPLE : Nat := 8

def OT_SIM_EVENT_RADIO_STATE : Nat := 9

def OT_SIM_EVENT_EXT_ADDR : Nat := 11

def OT_SIM_EVENT_NODE_INFO : Nat := 12

def OT_SIM_EVENT_RFSIM_PARAM_RSP : Nat := 18

def OT_SIM_EVENT_LOG_WRITE : Nat := 19

/-- `sizeof(struct RadioCommEventData)` (packed: u8 + i8 + u8 + u64). -/
def SIZEOF_RADIO_COMM_EVENT_DATA : Nat := 11

/-- `sizeof(struct RadioStateEventData)` (packed: 6 byte fields + u64). -/
def SIZEOF_RADIO_STATE_EVENT_DATA : Nat := 14

/-- `sizeof(struct MsgToHostEventData)` (packed: 2·u16 + 2·16-byte IPv6). -/
def SIZEOF_MSG_TO_HOST_EVENT_DATA : Nat := 36

/-- Header fields of an outbound simulation event as assembled by the
builders in `event-sim.c`. `mDelay` is `none` when the builder never assigns
the field of its stack-allocated `struct Event` (the bytes sent on the wire
are then indeterminate). -/
structure Event where
  mDelay : Option Nat
  mEvent : Nat
  mDataLength : Nat
deriving Repr, DecidableEq

/-- `otSimSendSleepEvent` (asserts `platformAlarmGetNext() > 0` before
sending). -/
def otSimSendSleepEvent (a : AlarmState) : Event :=
  { mDelay := some (platformAlarmGetNext a), mEvent := OT_SIM_EVENT_ALARM_FIRED,
    mDataLength := 0 }

/-- `otSimSendRadioCommEvent`: builds a `RADIO_COMM_START` event; the
builder never assigns `event.mDelay`. -/
def otSimSendRadioCommEvent (aLenPayload : Nat) : Event :=
  { mDelay := none, mEvent := OT_SIM_EVENT_RADIO_COMM_START,
    mDataLength := SIZEOF_RADIO_COMM_EVENT_DATA + aLenPayload }

/-- `otSimSendRadioCommInterferenceEvent`: also leaves `event.mDelay`
unassigned. -/
def otSimSendRadioCommInterferenceEvent : Event :=
  { mDelay := none, mEvent := OT_SIM_EVENT_RADIO_COMM_START,
    mDataLength := SIZEOF_RADIO_COMM_EVENT_DATA + 1 }

/-- `otSimSendRadioChanSampleEvent`. -/
def otSimSendRadioChanSampleEvent : Event :=
  { mDelay := some 0, mEvent := OT_SIM_EVENT_RADIO_CHAN_SAMPLE,
    mDataLength := SIZEOF_RADIO_COMM_EVENT_DATA }

/-- `otSimSendRadioStateEvent`: the delay field carries the microseconds
until the next radio-state change. -/
def otSimSendRadioStateEvent (aDeltaUntilNextRadioState : Nat) : Event :=
  { mDelay := some aDeltaUntilNextRadioState, mEvent := OT_SIM_EVENT_RADIO_STATE,
    mDataLength := SIZEOF_RADIO_STATE_EVENT_DATA }

/-- `otSimSendUartWriteEvent`. -/
def otSimSendUartWriteEvent (aLength : Nat) : Event :=
  { mDelay := some 0, mEvent := OT_SIM_EVENT_UART_WRITE, mDataLength := aLength }

/-- `otSimSendLogWriteEvent`. -/
def otSimSendLogWriteEvent (aLength : Nat) : Event :=
  { mDelay := some 0, mEvent := OT_SIM_EVENT_LOG_WRITE, mDataLength := aLength }

/-- `otSimSendOtnsStatusPushEvent`. -/
def otSimSendOtnsStatusPushEvent (aLength : Nat) : Event :=
  { mDelay := some 0, mEvent := OT_SIM_EVENT_OTNS_STATUS_PUSH, mDataLength := aLength }

/-- `otSimSendExtAddrEvent`. -/
def otSimSendExtAddrEvent : Event :=
  { mDelay := some 0, mEvent := OT_SIM_EVENT_EXT_ADDR, mDataLength := 8 }

/-- `otSimSendNodeInfoEvent`. -/
def otSimSendNodeInfoEvent : Event :=
  { mDelay := some 0, mEvent := OT_SIM_EVENT_NODE_INFO, mDataLength := 4 }

/-- `otSimSendRfSimParamRespEvent`. -/
def otSimSendRfSimParamRespEvent : Event :=
  { mDelay := some 0, mEvent := OT_SIM_EVENT_RFSIM_PARAM_RSP, mDataLength := 5 }

/-- `otSimSendMsgToHostEvent`. -/
def otSimSendMsgToHostEvent (evType : Nat) (aMsgLen : Nat) : Event :=
  { mDelay := some 0, mEvent := evType,
    mDataLength := SIZEOF_MSG_TO_HOST_EVENT_DATA + aMsgLen }

/-- `platformRadioReportStateToSimulator`: emit a `RADIO_STATE` event when
forced or when any reported field changed; its delay is the time remaining
to the recorded radio deadline (0 when that deadline is not in the future). -/
def platformRadioReportStateToSimulator (s : RadioState) (aForce : Bool) :
    RadioState × Option Event :=
  if aForce ∨ s.sLastReportedState ≠ s.sState ∨
      s.sLastReportedChannel ≠ s.sOngoingOperationChannel ∨
      s.sLastReportedSubState ≠ s.sSubState ∨
      s.sLastReportedRadioEventTime ≠ s.sNextRadioEventTime ∨
      s.sLastReportedRxSensitivity ≠ s.sRxSensitivity then
    let s :=
      { s with sLastReportedState := s.sState,
               sLastReportedChannel := s.sOngoingOperationChannel,
               sLastReportedSubState := s.sSubState,
               sLastReportedRadioEventTime := s.sNextRadioEventTime,
               sLastReportedRxSensitivity := s.sRxSensitivity }
    let delayUntilNextRadioState :=
      if s.sNextRadioEventTime > s.time then s.sNextRadioEventTime - s.time else 0
    (s, some (otSimSendRadioStateEvent delayUntilNextRadioState))
  else (s, none)

/-! ## RFSIM parameter get/set (radio.c) -/

/-- The RFSIM parameter identifiers of `radio.h`. -/
inductive RfSimParam where
  | RX_SENSITIVITY | CCA_THRESHOLD | CSL_ACCURACY | CSL_UNCERTAINTY
  | TX_INTERFERER | CLOCK_DRIFT | UNKNOWN
deriving Repr, DecidableEq

/-- `(int8_t)` conversion of a C integer value: reduce modulo 256 into
`[-128, 127]`. -/
def toInt8 (v : Int) : Int :=
  let r := v % 256
  if r < 128 then r else r - 256

/-- `(uint8_t)` conversion of a C integer value: reduce modulo 256. -/
def toUint8 (v : Int) : Nat :=
  (v % 256).toNat

/-- `platformRadioRfSimParamSet`: update the selected parameter (with the
C-style narrowing conversions) and answer with a parameter response. For
`TX_INTERFERER` the stored level is capped at 100 and the turnaround time is
switched between the Wi-Fi slot time and the 802.15.4 default. -/
def platformRadioRfSimParamSet (s : RadioState) (a : AlarmState) (param : RfSimParam)
    (value : Int) : RadioState × AlarmState :=
  match param with
  | RfSimParam.RX_SENSITIVITY => ({ s with sRxSensitivity := toInt8 value }, a)
  | RfSimParam.CCA_THRESHOLD => ({ s with sCcaEdThresh := toInt8 value }, a)
  | RfSimParam.CSL_ACCURACY => ({ s with sCslAccuracy := toUint8 value }, a)
  | RfSimParam.CSL_UNCERTAINTY => ({ s with sCslUncertainty := toUint8 value }, a)
  | RfSimParam.TX_INTERFERER =>
      let lvl := toUint8 value
      let lvl := if lvl > 100 then 100 else lvl
      ({ s with sTxInterfererLevel := lvl,
                sTurnaroundTimeUs :=
                  if lvl > 0 then OT_RADIO_WIFI_SLOT_TIME_US else RFSIM_TURNAROUND_TIME_US },
       a)
  | RfSimParam.CLOCK_DRIFT => (s, platformAlarmSetClockDrift a (toInt8 value))
  | RfSimParam.UNKNOWN => (s, a)

/-! ## Concrete states used by witnesses and counterexamples -/

/-- A frame with default field values. -/
def frame0 : Frame :=
  { mChannel := 11, mLength := 10, mSequence := 0, mIsAck := false,
    mIsAckRequested := false, mAddressedToMe := false, mRssi := 0, mTimestamp := 0 }

/-- A radio state with the power-on defaults of `radio.c` (receive mode,
channel 11). -/
def baseRadio : RadioState :=
  { time := 0, sState := OtRadioState.Receive, sSubState := RadioSubState.READY,
    sNextRadioEventTime := 0, sTurnaroundTimeUs := RFSIM_TURNAROUND_TIME_US,
    sTxWait := false, sDelaySleep := false, sPromiscuous := false,
    sCcaEdThresh := RFSIM_CCA_ED_THRESHOLD_DEFAULT_DBM, sRxSensitivity := -100,
    sCslAccuracy := 20, sCslUncertainty := 10, sTxInterfererLevel := 0,
    sCurrentChannel := 11, sOngoingOperationChannel := 11, sReceiveTimestamp := 0,
    sTransmitFrame := frame0, sReceiveFrame := frame0, sAckFrame := frame0,
    sLastTxError := OtError.NONE, sLastTxDuration := 0, sEnergyScanning := false,
    sEnergyScanEndTime := 0, sEnergyScanResult := OT_RADIO_RSSI_INVALID, sTxPower := 0,
    sLastReportedState := OtRadioState.Invalid,
    sLastReportedSubState := RadioSubState.INVALID, sLastReportedChannel := 0,
    sLastReportedRadioEventTime := 0, sLastReportedRxSensitivity := OT_RADIO_RSSI_INVALID }

/-- Mid-CCA state used by the C1 counterexample. -/
def cexC1State : RadioState :=
  { baseRadio with sState := OtRadioState.Transmit, sSubState := RadioSubState.TX_CCA,
                   sTxWait := true }

/-- State with a finite 40 µs sub-state deadline used against C2 and C4. -/
def cexDeadlineState : RadioState :=
  { baseRadio with sSubState := RadioSubState.TX_CCA_TO_TX, sNextRadioEventTime := 40 }

/-- Alarm state with the microsecond alarm armed 7 µs ahead. -/
def usArmedAlarm : AlarmState :=
  { platformAlarmInit with sIsUsRunning := true, sUsAlarm := 7 }

/-- State awaiting a matching ACK (seq 7) used by the C5 witness. -/
def c5AckState : RadioState :=
  { baseRadio with
      sState := OtRadioState.Transmit,
      sSubState := RadioSubState.TX_ACK_RX_ONGOING, sTxWait := true,
      sTransmitFrame := { frame0 with mIsAckRequested := true, mSequence := 7 },
      sReceiveFrame := { frame0 with mIsAck := true, mSequence := 7, mLength := 5 } }

/-- State amid frame reception used by the C6 witness. -/
def c6RxState : RadioState :=
  { baseRadio with
      sSubState := RadioSubState.RX_FRAME_ONGOING,
      sNextRadioEventTime := 500 }

/-- State with a pending TX during frame reception used by the C7 witness. -/
def c7PendState : RadioState :=
  { baseRadio with
      sState := OtRadioState.Transmit, sTxWait := false,
      sSubState := RadioSubState.RX_FRAME_ONGOING, sNextRadioEventTime := 500 }

/-- The 256-entry FCS lookup table `sFcsTable` of `crc16_citt` in
`radio.c` (CRC-16/CCITT aka KERMIT, poly 0x1021 reflected, init 0, xor 0). -/
def sFcsTable : List Nat :=
  [ 0x0000, 0x1189, 0x2312, 0x329b, 0x4624, 0x57ad, 0x6536, 0x74bf,
    0x8c48, 0x9dc1, 0xaf5a, 0xbed3, 0xca6c, 0xdbe5, 0xe97e, 0xf8f7,
    0x1081, 0x0108, 0x3393, 0x221a, 0x56a5, 0x472c, 0x75b7, 0x643e,
    0x9cc9, 0x8d40, 0xbfdb, 0xae52, 0xdaed, 0xcb64, 0xf9ff, 0xe876,
    0x2102, 0x308b, 0x0210, 0x1399, 0x6726, 0x76af, 0x4434, 0x55bd,
    0xad4a, 0xbcc3, 0x8e58, 0x9fd1, 0xeb6e, 0xfae7, 0xc87c, 0xd9f5,
    0x3183, 0x200a, 0x1291, 0x0318, 0x77a7, 0x662e, 0x54b5, 0x453c,
    0xbdcb, 0xac42, 0x9ed9, 0x8f50, 0xfbef, 0xea66, 0xd8fd, 0xc974,
    0x4204, 0x538d, 0x6116, 0x709f, 0x0420, 0x15a9, 0x2732, 0x36bb,
    0xce4c, 0xdfc5, 0xed5e, 0xfcd7, 0x8868, 0x99e1, 0xab7a, 0xbaf3,
    0x5285, 0x430c, 0x7197, 0x601e, 0x14a1, 0x0528, 0x37b3, 0x263a,
    0xdecd, 0xcf44, 0xfddf, 0xec56, 0x98e9, 0x8960, 0xbbfb, 0xaa72,
    0x6306, 0x728f, 0x4014, 0x519d, 0x2522, 0x34ab, 0x0630, 0x17b9,
    0xef4e, 0xfec7, 0xcc5c, 0xddd5, 0xa96a, 0xb8e3, 0x8a78, 0x9bf1,
    0x7387, 0x620e, 0x5095, 0x411c, 0x35a3, 0x242a, 0x16b1, 0x0738,
    0xffcf, 0xee46, 0xdcdd, 0xcd54, 0xb9eb, 0xa862, 0x9af9, 0x8b70,
    0x8408, 0x9581, 0xa71a, 0xb693, 0xc22c, 0xd3a5, 0xe13e, 0xf0b7,
    0x0840, 0x19c9, 0x2b52, 0x3adb, 0x4e64, 0x5fed, 0x6d76, 0x7cff,
    0x9489, 0x8500, 0xb79b, 0xa612, 0xd2ad, 0xc324, 0xf1bf, 0xe036,
    0x18c1, 0x0948, 0x3bd3, 0x2a5a, 0x5ee5, 0x4f6c, 0x7df7, 0x6c7e,
    0xa50a, 0xb483, 0x8618, 0x9791, 0xe32e, 0xf2a7, 0xc03c, 0xd1b5,
    0x2942, 0x38cb, 0x0a50, 0x1bd9, 0x6f66, 0x7eef, 0x4c74, 0x5dfd,
    0xb58b, 0xa402, 0x9699, 0x8710, 0xf3af, 0xe226, 0xd0bd, 0xc134,
    0x39c3, 0x284a, 0x1ad1, 0x0b58, 0x7fe7, 0x6e6e, 0x5cf5, 0x4d7c,
    0xc60c, 0xd785, 0xe51e, 0xf497, 0x8028, 0x91a1, 0xa33a, 0xb2b3,
    0x4a44, 0x5bcd, 0x6956, 0x78df, 0x0c60, 0x1de9, 0x2f72, 0x3efb,
    0xd68d, 0xc704, 0xf59f, 0xe416, 0x90a9, 0x8120, 0xb3bb, 0xa232,
    0x5ac5, 0x4b4c, 0x79d7, 0x685e, 0x1ce1, 0x0d68, 0x3ff3, 0x2e7a,
    0xe70e, 0xf687, 0xc41c, 0xd595, 0xa12a, 0xb0a3, 0x8238, 0x93b1,
    0x6b46, 0x7acf, 0x4854, 0x59dd, 0x2d62, 0x3ceb, 0x0e70, 0x1ff9,
    0xf78f, 0xe606, 0xd49d, 0xc514, 0xb1ab, 0xa022, 0x92b9, 0x8330,
    0x7bc7, 0x6a4e, 0x58d5, 0x495c, 0x3de3, 0x2c6a, 0x1ef1, 0x0f78]

/-- One bit-round of the reflected CRC-16/Kermit from the spec: shift right
by one and conditionally xor the reflected polynomial 0x8408 (the
reflection of 0x1021). Modelled from the spec words
"poly 0x1021, reflected, init 0, xor 0". -/
def kermitRound (c : Nat) : Nat := if c % 2 = 1 then (c / 2) ^^^ 0x8408 else c / 2

/-- Folding one byte into a reflected CRC-16/Kermit: xor into the low byte,
then eight bit-rounds (spec-side definition). -/
def kermitByteStep (c b : Nat) : Nat := kermitRound^[8] (c ^^^ b)

/-- The spec-side CRC-16/Kermit of a byte sequence, init 0, xor 0. -/
def crc16Kermit (bytes : List Nat) : Nat := bytes.foldl kermitByteStep 0

/-- `crc16_citt` of `radio.c`: one table-driven CRC update step. -/
def crc16_citt (aFcs : Nat) (aByte : Nat) : Nat :=
  (aFcs >>> 8) ^^^ sFcsTable.getD ((aFcs ^^^ aByte) &&& 0xff) 0

/-- `radioComputeCrc` of `radio.c`: CRC over the PSDU bytes before the FCS
field, stored little-endian in the last two bytes. It is invoked on
`sTransmitMessage` in `radioSendMessage` and on `sAckMessage` in
`radioPrepareAck`, i.e. on every frame serialized for transmission. -/
def radioComputeCrc (mPsdu : List Nat) (aLength : Nat) : List Nat :=
  let crcOffset := aLength - 2
  let crc := (mPsdu.take crcOffset).foldl crc16_citt 0
  (mPsdu.set crcOffset (crc &&& 0xff)).set (crcOffset + 1) (crc >>> 8)

theorem alarmInv_init : AlarmInv platformAlarmInit := by
  constructor <;> simp [platformAlarmInit, PS_PER_US]

theorem alarmInv_setDrift (s : AlarmState) (d : Int) (h : AlarmInv s) :
    AlarmInv (platformAlarmSetClockDrift s d) := h

theorem advance_drift_eq (s : AlarmState) (δ : Nat) :
    (platformAlarmAdvanceNow s δ).sClockDriftPpm = s.sClockDriftPpm := by
  simp only [platformAlarmAdvanceNow]
  split <;> rfl

theorem alarmInv_advance (s : AlarmState) (δ : Nat) (h : AlarmInv s) :
    AlarmInv (platformAlarmAdvanceNow s δ) := by
  simp only [platformAlarmAdvanceNow]
  split
  · -- the flush case: truncating division leaves a remainder < 1 µs in absolute value
    rename_i hcond
    unfold AlarmInv cdivTrunc
    simp only [PS_PER_US] at *
    set ps : Int := s.sDriftPicoSec + s.sClockDriftPpm * (δ : Int) with hps
    constructor <;>
    · split <;> omega
  · rename_i hcond
    unfold AlarmInv
    simp only [PS_PER_US] at *
    constructor <;> omega

theorem alarmInv_advanceList (s : AlarmState) (ds : List Nat) (h : AlarmInv s) :
    AlarmInv (advanceList s ds) := by
  induction ds generalizing s with
  | nil => exact h
  | cons d ds ih => exact ih _ (alarmInv_advance s d h)

theorem advanceList_drift_eq (s : AlarmState) (ds : List Nat) :
    (advanceList s ds).sClockDriftPpm = s.sClockDriftPpm := by
  induction ds generalizing s with
  | nil => rfl
  | cons d ds ih => simpa [advanceList, advance_drift_eq] using ih (platformAlarmAdvanceNow s d)

/-- One advance step never decreases the counter when the drift setting is
within the int8 range used by the drift parameter. -/
theorem advance_mono (s : AlarmState) (δ : Nat)
    (hInv : AlarmInv s) (hlo : -128 ≤ s.sClockDriftPpm) (hhi : s.sClockDriftPpm ≤ 127) :
    s.sNow ≤ (platformAlarmAdvanceNow s δ).sNow := by
  unfold AlarmInv at hInv
  simp only [platformAlarmAdvanceNow]
  split
  · rename_i hcond
    unfold cdivTrunc
    simp only [PS_PER_US] at *
    obtain ⟨hI1, hI2⟩ := hInv
    split
    · -- nonnegative remainder: the adjustment is nonnegative
      rename_i hpos
      have : (0 : Int) ≤ (((s.sDriftPicoSec + s.sClockDriftPpm * (δ : Int)).toNat / 1000000 : Nat) : Int) := by
        positivity
      omega
    · -- negative remainder: the flushed microseconds never exceed the delta
      rename_i hneg
      have hb : (-(s.sDriftPicoSec + s.sClockDriftPpm * (δ : Int))).toNat < 1000000 + 128 * δ := by
        have : s.sClockDriftPpm * (δ : Int) ≥ -128 * (δ : Int) := by
          have := mul_le_mul_of_nonneg_right hlo (show (0:Int) ≤ (δ : Int) by positivity)
          linarith
        omega
      have hdiv : (-(s.sDriftPicoSec + s.sClockDriftPpm * (δ : Int))).toNat / 1000000 ≤ δ := by
        omega
      omega
  · show s.sNow ≤ s.sNow + (δ : Int)
    omega

theorem advance_zero_drift (s : AlarmState) (δ : Nat)
    (hd : s.sClockDriftPpm = 0) (hp : s.sDriftPicoSec = 0) :
    (platformAlarmAdvanceNow s δ).sNow = s.sNow + (δ : Int) ∧
      (platformAlarmAdvanceNow s δ).sClockDriftPpm = 0 ∧
      (platformAlarmAdvanceNow s δ).sDriftPicoSec = 0 := by
  simp [platformAlarmAdvanceNow, hd, hp, PS_PER_US]

theorem advanceList_zero_drift (ds : List Nat) (s : AlarmState)
    (hd : s.sClockDriftPpm = 0) (hp : s.sDriftPicoSec = 0) :
    (advanceList s ds).sNow = s.sNow + (ds.sum : Int) := by
  induction ds generalizing s with
  | nil => simp [advanceList]
  | cons d ds ih =>
      obtain ⟨h1, h2, h3⟩ := advance_zero_drift s d hd hp
      have := ih (platformAlarmAdvanceNow s d) h2 h3
      simp only [advanceList, List.foldl_cons] at *
      rw [this, h1, List.sum_cons]
      push_cast
      ring

/-- **C3.** The virtual clock is monotonic: from a freshly initialised clock
with any drift setting in the int8 range (roughly ±127 ppm), after any
sequence of `platformAlarmAdvanceNow` calls with nonnegative microsecond
deltas, one more advance never decreases the value returned by
`platformAlarmGetNow` — including when a negative drift flushes whole
microseconds out of the picosecond remainder. -/
theorem c3_clock_monotonic (d : Int) (ds : List Nat) (δ : Nat)
    (hlo : -128 ≤ d) (hhi : d ≤ 127) :
    platformAlarmGetNow (advanceList (platformAlarmSetClockDrift platformAlarmInit d) ds) ≤
      platformAlarmGetNow
        (platformAlarmAdvanceNow (advanceList (platformAlarmSetClockDrift platformAlarmInit d) ds) δ) := by
  have hdrift : (advanceList (platformAlarmSetClockDrift platformAlarmInit d) ds).sClockDriftPpm = d := by
    rw [advanceList_drift_eq]; rfl
  exact advance_mono _ δ
    (alarmInv_advanceList _ ds (alarmInv_setDrift _ d alarmInv_init))
    (by rw [hdrift]; exact hlo) (by rw [hdrift]; exact hhi)

/-- Witness for C3 at drift −127 ppm and the delta sequence `[1, 2]`. -/
theorem c3_clock_monotonic_witness :
    (-128 ≤ (-127 : Int)) ∧ ((-127 : Int) ≤ 127) ∧
      platformAlarmGetNow (advanceList (platformAlarmSetClockDrift platformAlarmInit (-127)) [1, 2]) ≤
        platformAlarmGetNow
          (platformAlarmAdvanceNow (advanceList (platformAlarmSetClockDrift platformAlarmInit (-127)) [1, 2]) 3) :=
  ⟨by norm_num, by norm_num, c3_clock_monotonic (-127) [1, 2] 3 (by norm_num) (by norm_num)⟩

/-- **C8.** With drift 0 ppm the clock equals exactly the sum of the advance
deltas; with drift +100 ppm a single advance of 10 000 000 µs from a fresh
clock yields exactly 10 001 000 µs. -/
theorem c8_exact_drift_arithmetic :
    (∀ ds : List Nat,
        platformAlarmGetNow (advanceList (platformAlarmSetClockDrift platformAlarmInit 0) ds) =
          (ds.sum : Int)) ∧
      platformAlarmGetNow
          (platformAlarmAdvanceNow (platformAlarmSetClockDrift platformAlarmInit 100) 10000000) =
        10001000 := by
  constructor
  · intro ds
    have := advanceList_zero_drift ds (platformAlarmSetClockDrift platformAlarmInit 0) rfl rfl
    simpa [platformAlarmGetNow, platformAlarmSetClockDrift, platformAlarmInit] using this
  · decide

theorem signedDiff32_lt (a b : Nat) : signedDiff32 a b < 2 ^ 31 := by
  simp only [signedDiff32]
  split <;> omega

/-- **C4 (amended).** `platformAlarmGetNext` equals the minimum of the
remaining times of the two armed alarms alone (with the `INT64_MAX` sentinel
standing in for an alarm that is not armed); the radio sub-state deadline and
BLE events do not enter the computation. -/
theorem c4_next_deadline_amended (s : AlarmState) :
    platformAlarmGetNext s = min (msRemainingUs s) (usRemainingUs s) := by
  have hm := signedDiff32_lt s.sMsAlarm (otPlatAlarmMilliGetNow s)
  have hu := signedDiff32_lt s.sUsAlarm (otPlatAlarmMicroGetNow s)
  simp only [platformAlarmGetNext, msRemainingUs, usRemainingUs, INT64_MAX, US_PER_MS]
  split_ifs <;> omega

/-! ## Projection lemmas for the state-machine helpers

These let the claim proofs reason about `setRadioSubState`, `setRadioState`,
`signalRadioTxDone` and `applyRadioDelayedSleep` without expanding the full
radio-state record. -/

@[simp] theorem setRadioSubState_sSubState (s : RadioState) (a : RadioSubState) (t : Nat) :
    (setRadioSubState s a t).sSubState = a := by
  rw [setRadioSubState]; split <;> rfl

@[simp] theorem setRadioSubState_sNextRadioEventTime (s : RadioState) (a : RadioSubState)
    (t : Nat) :
    (setRadioSubState s a t).sNextRadioEventTime = if t = 0 then 0 else s.time + t := by
  rw [setRadioSubState, UNDEFINED_TIME_US]; split <;> simp_all

@[simp] theorem setRadioSubState_sState (s : RadioState) (a : RadioSubState) (t : Nat) :
    (setRadioSubState s a t).sState = s.sState := by
  rw [setRadioSubState]; split <;> rfl

@[simp] theorem setRadioSubState_sTxWait (s : RadioState) (a : RadioSubState) (t : Nat) :
    (setRadioSubState s a t).sTxWait = s.sTxWait := by
  rw [setRadioSubState]; split <;> rfl

@[simp] theorem setRadioSubState_sDelaySleep (s : RadioState) (a : RadioSubState) (t : Nat) :
    (setRadioSubState s a t).sDelaySleep = s.sDelaySleep := by
  rw [setRadioSubState]; split <;> rfl

@[simp] theorem setRadioSubState_time (s : RadioState) (a : RadioSubState) (t : Nat) :
    (setRadioSubState s a t).time = s.time := by
  rw [setRadioSubState]; split <;> rfl

@[simp] theorem setRadioSubState_sTxInterfererLevel (s : RadioState) (a : RadioSubState)
    (t : Nat) : (setRadioSubState s a t).sTxInterfererLevel = s.sTxInterfererLevel := by
  rw [setRadioSubState]; split <;> rfl

@[simp] theorem setRadioSubState_sTransmitFrame (s : RadioState) (a : RadioSubState) (t : Nat) :
    (setRadioSubState s a t).sTransmitFrame = s.sTransmitFrame := by
  rw [setRadioSubState]; split <;> rfl

@[simp] theorem setRadioSubState_sReceiveFrame (s : RadioState) (a : RadioSubState) (t : Nat) :
    (setRadioSubState s a t).sReceiveFrame = s.sReceiveFrame := by
  rw [setRadioSubState]; split <;> rfl

@[simp] theorem setRadioSubState_sAckFrame (s : RadioState) (a : RadioSubState) (t : Nat) :
    (setRadioSubState s a t).sAckFrame = s.sAckFrame := by
  rw [setRadioSubState]; split <;> rfl

@[simp] theorem setRadioSubState_sPromiscuous (s : RadioState) (a : RadioSubState) (t : Nat) :
    (setRadioSubState s a t).sPromiscuous = s.sPromiscuous := by
  rw [setRadioSubState]; split <;> rfl

@[simp] theorem setRadioSubState_sTurnaroundTimeUs (s : RadioState) (a : RadioSubState)
    (t : Nat) : (setRadioSubState s a t).sTurnaroundTimeUs = s.sTurnaroundTimeUs := by
  rw [setRadioSubState]; split <;> rfl

@[simp] theorem setRadioSubState_sReceiveTimestamp (s : RadioState) (a : RadioSubState)
    (t : Nat) : (setRadioSubState s a t).sReceiveTimestamp = s.sReceiveTimestamp := by
  rw [setRadioSubState]; split <;> rfl

@[simp] theorem setRadioSubState_sLastTxDuration (s : RadioState) (a : RadioSubState)
    (t : Nat) : (setRadioSubState s a t).sLastTxDuration = s.sLastTxDuration := by
  rw [setRadioSubState]; split <;> rfl

@[simp] theorem setRadioSubState_sCurrentChannel (s : RadioState) (a : RadioSubState)
    (t : Nat) : (setRadioSubState s a t).sCurrentChannel = s.sCurrentChannel := by
  rw [setRadioSubState]; split <;> rfl

@[simp] theorem setRadioState_sState (s : RadioState) (a : OtRadioState) :
    (setRadioState s a).sState = a := rfl

@[simp] theorem setRadioState_sSubState (s : RadioState) (a : OtRadioState)
    (h : a ≠ OtRadioState.Disabled) : (setRadioState s a).sSubState = s.sSubState := by
  rw [setRadioState]
  rw [if_neg (by simp [h])]

@[simp] theorem setRadioState_sNextRadioEventTime (s : RadioState) (a : OtRadioState)
    (h : a ≠ OtRadioState.Disabled) :
    (setRadioState s a).sNextRadioEventTime = s.sNextRadioEventTime := by
  rw [setRadioState]
  rw [if_neg (by simp [h])]

@[simp] theorem setRadioState_sTxWait (s : RadioState) (a : OtRadioState) :
    (setRadioState s a).sTxWait = s.sTxWait := by
  rw [setRadioState]; split
  · rw [setRadioSubState]; split <;> rfl
  · rfl

@[simp] theorem setRadioState_sDelaySleep (s : RadioState) (a : OtRadioState) :
    (setRadioState s a).sDelaySleep = s.sDelaySleep := by
  rw [setRadioState]; split
  · rw [setRadioSubState]; split <;> rfl
  · rfl

@[simp] theorem setRadioState_time (s : RadioState) (a : OtRadioState) :
    (setRadioState s a).time = s.time := by
  rw [setRadioState]; split
  · rw [setRadioSubState]; split <;> rfl
  · rfl

@[simp] theorem setRadioState_sTxInterfererLevel (s : RadioState) (a : OtRadioState) :
    (setRadioState s a).sTxInterfererLevel = s.sTxInterfererLevel := by
  rw [setRadioState]; split
  · rw [setRadioSubState]; split <;> rfl
  · rfl

@[simp] theorem setRadioState_sTransmitFrame (s : RadioState) (a : OtRadioState) :
    (setRadioState s a).sTransmitFrame = s.sTransmitFrame := by
  rw [setRadioState]; split
  · rw [setRadioSubState]; split <;> rfl
  · rfl

@[simp] theorem setRadioState_sReceiveFrame (s : RadioState) (a : OtRadioState) :
    (setRadioState s a).sReceiveFrame = s.sReceiveFrame := by
  rw [setRadioState]; split
  · rw [setRadioSubState]; split <;> rfl
  · rfl

@[simp] theorem setRadioState_sAckFrame (s : RadioState) (a : OtRadioState) :
    (setRadioState s a).sAckFrame = s.sAckFrame := by
  rw [setRadioState]; split
  · rw [setRadioSubState]; split <;> rfl
  · rfl

@[simp] theorem setRadioState_sTurnaroundTimeUs (s : RadioState) (a : OtRadioState) :
    (setRadioState s a).sTurnaroundTimeUs = s.sTurnaroundTimeUs := by
  rw [setRadioState]; split
  · rw [setRadioSubState]; split <;> rfl
  · rfl

@[simp] theorem signalRadioTxDone_out (s : RadioState) (f : Frame) (a : Option Frame)
    (e : OtError) (h : s.sTxInterfererLevel = 0) :
    (signalRadioTxDone s f a e).2 = [RadioOutput.txDone f a e] := by
  rw [signalRadioTxDone]
  rw [if_neg (by omega)]

@[simp] theorem signalRadioTxDone_sTxWait (s : RadioState) (f : Frame) (a : Option Frame)
    (e : OtError) (h : s.sTxInterfererLevel = 0) :
    (signalRadioTxDone s f a e).1.sTxWait = s.sTxWait := by
  rw [signalRadioTxDone]
  rw [if_neg (by omega)]
  split <;> simp

@[simp] theorem signalRadioTxDone_sSubState (s : RadioState) (f : Frame) (a : Option Frame)
    (e : OtError) (h : s.sTxInterfererLevel = 0) :
    (signalRadioTxDone s f a e).1.sSubState = s.sSubState := by
  rw [signalRadioTxDone]
  rw [if_neg (by omega)]
  split <;> simp

@[simp] theorem signalRadioTxDone_sDelaySleep (s : RadioState) (f : Frame) (a : Option Frame)
    (e : OtError) (h : s.sTxInterfererLevel = 0) :
    (signalRadioTxDone s f a e).1.sDelaySleep = s.sDelaySleep := by
  rw [signalRadioTxDone]
  rw [if_neg (by omega)]
  split <;> simp

@[simp] theorem signalRadioTxDone_sNextRadioEventTime (s : RadioState) (f : Frame)
    (a : Option Frame) (e : OtError) (h : s.sTxInterfererLevel = 0) :
    (signalRadioTxDone s f a e).1.sNextRadioEventTime = s.sNextRadioEventTime := by
  rw [signalRadioTxDone]
  rw [if_neg (by omega)]
  split <;> simp

@[simp] theorem signalRadioTxDone_time (s : RadioState) (f : Frame) (a : Option Frame)
    (e : OtError) (h : s.sTxInterfererLevel = 0) :
    (signalRadioTxDone s f a e).1.time = s.time := by
  rw [signalRadioTxDone]
  rw [if_neg (by omega)]
  split <;> simp

@[simp] theorem signalRadioTxDone_sTxInterfererLevel (s : RadioState) (f : Frame)
    (a : Option Frame) (e : OtError) (h : s.sTxInterfererLevel = 0) :
    (signalRadioTxDone s f a e).1.sTxInterfererLevel = s.sTxInterfererLevel := by
  rw [signalRadioTxDone]
  rw [if_neg (by omega)]
  split <;> simp

@[simp] theorem signalRadioTxDone_sTransmitFrame (s : RadioState) (f : Frame)
    (a : Option Frame) (e : OtError) (h : s.sTxInterfererLevel = 0) :
    (signalRadioTxDone s f a e).1.sTransmitFrame = s.sTransmitFrame := by
  rw [signalRadioTxDone]
  rw [if_neg (by omega)]
  split <;> simp

@[simp] theorem signalRadioTxDone_sTurnaroundTimeUs (s : RadioState) (f : Frame)
    (a : Option Frame) (e : OtError) (h : s.sTxInterfererLevel = 0) :
    (signalRadioTxDone s f a e).1.sTurnaroundTimeUs = s.sTurnaroundTimeUs := by
  rw [signalRadioTxDone]
  rw [if_neg (by omega)]
  split <;> simp

@[simp] theorem applyRadioDelayedSleep_sDelaySleep (s : RadioState) :
    (applyRadioDelayedSleep s).sDelaySleep = false := by
  rw [applyRadioDelayedSleep]; split <;> simp_all

@[simp] theorem applyRadioDelayedSleep_sState (s : RadioState) :
    (applyRadioDelayedSleep s).sState =
      if s.sDelaySleep then OtRadioState.Sleep else s.sState := by
  rw [applyRadioDelayedSleep]; split <;> simp_all

@[simp] theorem applyRadioDelayedSleep_sSubState (s : RadioState) :
    (applyRadioDelayedSleep s).sSubState = s.sSubState := by
  rw [applyRadioDelayedSleep]; split
  · simp
  · rfl

@[simp] theorem applyRadioDelayedSleep_sTxWait (s : RadioState) :
    (applyRadioDelayedSleep s).sTxWait = s.sTxWait := by
  rw [applyRadioDelayedSleep]; split
  · simp
  · rfl

@[simp] theorem applyRadioDelayedSleep_time (s : RadioState) :
    (applyRadioDelayedSleep s).time = s.time := by
  rw [applyRadioDelayedSleep]; split
  · simp
  · rfl

@[simp] theorem applyRadioDelayedSleep_sNextRadioEventTime (s : RadioState) :
    (applyRadioDelayedSleep s).sNextRadioEventTime = s.sNextRadioEventTime := by
  rw [applyRadioDelayedSleep]; split
  · simp
  · rfl

theorem radioProcessPreempt_no (s : RadioState)
    (h : ¬(platformRadioIsTransmitPending s = true ∧
      (s.sSubState = RadioSubState.RX_FRAME_ONGOING ∨
       s.sSubState = RadioSubState.RX_ACK_TX_ONGOING ∨
       s.sSubState = RadioSubState.RX_AIFS_WAIT))) :
    radioProcessPreempt s = (s, []) := by
  rw [radioProcessPreempt, if_neg h]

theorem radioProcessPreempt_yes (s : RadioState)
    (h : platformRadioIsTransmitPending s = true ∧
      (s.sSubState = RadioSubState.RX_FRAME_ONGOING ∨
       s.sSubState = RadioSubState.RX_ACK_TX_ONGOING ∨
       s.sSubState = RadioSubState.RX_AIFS_WAIT)) :
    radioProcessPreempt s =
      signalRadioTxDone s s.sTransmitFrame none OtError.CHANNEL_ACCESS_FAILURE := by
  rw [radioProcessPreempt, if_pos h]

theorem platformRadioProcess_eq (s : RadioState) (hint : s.sTxInterfererLevel = 0) :
    platformRadioProcess s =
      ((radioProcessTimer (radioProcessPreempt s).1).1,
        (radioProcessPreempt s).2 ++ (radioProcessTimer (radioProcessPreempt s).1).2) := by
  rw [platformRadioProcess, if_neg (by omega)]

/-! ## Claim theorems -/

/-- **C1 (counterexample).** A CCA result whose sampled power 127 dBm
(`OT_RADIO_RSSI_INVALID`) is not below the −75 dBm threshold nevertheless
proceeds toward transmission instead of failing with
`CHANNEL_ACCESS_FAILURE` and returning to `READY`. -/
theorem c1_counterexample :
    ¬((127 : Int) < cexC1State.sCcaEdThresh) ∧
      (platformRadioCcaDone cexC1State 11 127).1.sSubState ≠ RadioSubState.READY ∧
      (platformRadioCcaDone cexC1State 11 127).1.sSubState = RadioSubState.TX_CCA_TO_TX ∧
      (platformRadioCcaDone cexC1State 11 127).2 = [] := by
  decide

/-- **C1 (amended).** For a CCA result delivered in sub-state `TX_CCA` on the
transmit frame's channel (ordinary radio mode): if the sampled power is below
the CCA-ED threshold **or equals `OT_RADIO_RSSI_INVALID` (127)**, the radio
enters `TX_CCA_TO_TX` with the turnaround-time deadline; for every other
sampled power the transmission is failed with `CHANNEL_ACCESS_FAILURE` and
the sub-state returns to `READY`. -/
theorem c1_cca_decision (s : RadioState) (aChannel : Nat) (aPower : Int)
    (hch : aChannel = s.sTransmitFrame.mChannel)
    (hsub : s.sSubState = RadioSubState.TX_CCA)
    (hint : s.sTxInterfererLevel = 0)
    (hturn : 0 < s.sTurnaroundTimeUs) :
    ((aPower < s.sCcaEdThresh ∨ aPower = OT_RADIO_RSSI_INVALID) →
       (platformRadioCcaDone s aChannel aPower).1.sSubState = RadioSubState.TX_CCA_TO_TX ∧
       (platformRadioCcaDone s aChannel aPower).1.sNextRadioEventTime =
         s.time + s.sTurnaroundTimeUs ∧
       (platformRadioCcaDone s aChannel aPower).2 = []) ∧
    (¬aPower < s.sCcaEdThresh → aPower ≠ OT_RADIO_RSSI_INVALID →
       (platformRadioCcaDone s aChannel aPower).1.sSubState = RadioSubState.READY ∧
       (platformRadioCcaDone s aChannel aPower).1.sTxWait = false ∧
       (platformRadioCcaDone s aChannel aPower).2 =
         [RadioOutput.txDone s.sTransmitFrame none OtError.CHANNEL_ACCESS_FAILURE]) := by
  constructor
  · intro hclear
    simp only [platformRadioCcaDone, hch, hsub, setRadioSubState, UNDEFINED_TIME_US]
    split_ifs <;> simp_all
  · intro hge hninv
    simp only [platformRadioCcaDone, hch, hsub, setRadioSubState, signalRadioTxDone,
      setRadioState, UNDEFINED_TIME_US, hint]
    split_ifs <;> simp_all <;> omega

/-- Witness for C1 at the default −75 dBm threshold and a −90 dBm sample. -/
theorem c1_cca_decision_witness :
    (11 = cexC1State.sTransmitFrame.mChannel) ∧
      cexC1State.sSubState = RadioSubState.TX_CCA ∧
      cexC1State.sTxInterfererLevel = 0 ∧ 0 < cexC1State.sTurnaroundTimeUs ∧
      ((-90 : Int) < cexC1State.sCcaEdThresh ∨ (-90 : Int) = OT_RADIO_RSSI_INVALID) ∧
      (platformRadioCcaDone cexC1State 11 (-90)).1.sSubState = RadioSubState.TX_CCA_TO_TX ∧
      (platformRadioCcaDone cexC1State 11 (-90)).1.sNextRadioEventTime =
        cexC1State.time + cexC1State.sTurnaroundTimeUs ∧
      (platformRadioCcaDone cexC1State 11 (-90)).2 = [] :=
  ⟨by decide, by decide, by decide, by decide, Or.inl (by decide),
   (c1_cca_decision cexC1State 11 (-90) (by decide) (by decide) (by decide) (by decide)).1
     (Or.inl (by decide))⟩

/-- **C2 (counterexample).** A `RADIO_STATE` event produced by
`platformRadioReportStateToSimulator` with a 40 µs sub-state deadline ahead
is an outbound event other than the sleep event whose delay is 40, not 0. -/
theorem c2_counterexample :
    (platformRadioReportStateToSimulator cexDeadlineState true).2 =
        some (otSimSendRadioStateEvent 40) ∧
      (otSimSendRadioStateEvent 40).mEvent ≠ OT_SIM_EVENT_ALARM_FIRED ∧
      (otSimSendRadioStateEvent 40).mDelay ≠ some 0 := by
  decide

/-- **C2 (amended).** Every outbound event other than the sleep event, the
`RADIO_STATE` event and the `RADIO_COMM_START` event carries `delay = 0`; the
sleep event's delay equals `platformAlarmGetNext()` and is strictly positive
(asserted before sending); the `RADIO_STATE` event's delay is the time until
the next radio-state change; the `RADIO_COMM_START` builders leave the delay
field unassigned. -/
theorem c2_outbound_delays :
    (∀ n, (otSimSendUartWriteEvent n).mDelay = some 0) ∧
      (∀ n, (otSimSendLogWriteEvent n).mDelay = some 0) ∧
      (∀ n, (otSimSendOtnsStatusPushEvent n).mDelay = some 0) ∧
      otSimSendRadioChanSampleEvent.mDelay = some 0 ∧
      otSimSendExtAddrEvent.mDelay = some 0 ∧
      otSimSendNodeInfoEvent.mDelay = some 0 ∧
      otSimSendRfSimParamRespEvent.mDelay = some 0 ∧
      (∀ t n, (otSimSendMsgToHostEvent t n).mDelay = some 0) ∧
      (∀ a : AlarmState, 0 < platformAlarmGetNext a →
        (otSimSendSleepEvent a).mDelay = some (platformAlarmGetNext a) ∧
          (otSimSendSleepEvent a).mDelay ≠ some 0) ∧
      (∀ d, (otSimSendRadioStateEvent d).mDelay = some d) ∧
      (∀ n, (otSimSendRadioCommEvent n).mDelay = none) ∧
      otSimSendRadioCommInterferenceEvent.mDelay = none := by
  refine ⟨fun n => rfl, fun n => rfl, fun n => rfl, rfl, rfl, rfl, rfl, fun t n => rfl,
    fun a ha => ⟨rfl, ?_⟩, fun d => rfl, fun n => rfl, rfl⟩
  simp only [otSimSendSleepEvent, Option.some.injEq, ne_eq]
  omega

/-- Witness for C2's sleep-event clause with the microsecond alarm armed
7 µs ahead. -/
theorem c2_outbound_delays_witness :
    0 < platformAlarmGetNext usArmedAlarm ∧
      (otSimSendSleepEvent usArmedAlarm).mDelay = some (platformAlarmGetNext usArmedAlarm) ∧
      (otSimSendSleepEvent usArmedAlarm).mDelay ≠ some 0 := by
  refine ⟨by decide, c2_outbound_delays.2.2.2.2.2.2.2.2.1 usArmedAlarm (by decide)⟩

/-- **C4 (counterexample).** With neither alarm armed,
`platformAlarmGetNext` returns the `INT64_MAX` sentinel even though the
radio's sub-state deadline is finite with only 40 µs remaining, so the result
is not bounded by every finite sub-state deadline's remaining time. -/
theorem c4_counterexample :
    cexDeadlineState.sNextRadioEventTime ≠ UNDEFINED_TIME_US ∧
      cexDeadlineState.time < cexDeadlineState.sNextRadioEventTime ∧
      ¬(platformAlarmGetNext platformAlarmInit ≤
          cexDeadlineState.sNextRadioEventTime - cexDeadlineState.time) := by
  decide

/-- **C5.** For a transmitted frame that requests an acknowledgment (TX
outstanding, ordinary radio mode): a frame received error-free that is an ACK
with the transmitted frame's sequence number completes the transmission with
`NONE` and delivers the ACK frame to the stack; any other received frame
completes it with `NO_ACK`; and expiry of the `TX_AIFS_WAIT` deadline without
a frame completes it with `NO_ACK` and returns the sub-state to `READY`. -/
theorem c5_ack_handling (s : RadioState) :
    ((s.sState = OtRadioState.Receive ∨ s.sState = OtRadioState.Transmit) →
      s.sTxInterfererLevel = 0 → s.sTxWait = true →
      s.sTransmitFrame.mIsAckRequested = true →
      s.sReceiveFrame.mIsAck = true →
      s.sReceiveFrame.mSequence = s.sTransmitFrame.mSequence →
      (radioReceive s OtError.NONE).2 =
        [RadioOutput.txDone s.sTransmitFrame
          (some { s.sReceiveFrame with mTimestamp := s.sReceiveTimestamp }) OtError.NONE] ∧
      (radioReceive s OtError.NONE).1.sTxWait = false) ∧
    (∀ e : OtError, (s.sState = OtRadioState.Receive ∨ s.sState = OtRadioState.Transmit) →
      s.sTxInterfererLevel = 0 → s.sTxWait = true →
      s.sTransmitFrame.mIsAckRequested = true →
      ¬(s.sReceiveFrame.mIsAck = true ∧ e = OtError.NONE ∧
          s.sReceiveFrame.mSequence = s.sTransmitFrame.mSequence) →
      ∃ ack, (radioReceive s e).2 =
          [RadioOutput.txDone s.sTransmitFrame ack OtError.NO_ACK] ∧
        (radioReceive s e).1.sTxWait = false) ∧
    (s.sTxInterfererLevel = 0 → s.sSubState = RadioSubState.TX_AIFS_WAIT →
      s.time ≥ s.sNextRadioEventTime →
      (platformRadioProcess s).2 =
        [RadioOutput.txDone s.sTransmitFrame none OtError.NO_ACK] ∧
      (platformRadioProcess s).1.sSubState = RadioSubState.READY ∧
      (platformRadioProcess s).1.sTxWait = false) := by
  refine ⟨?_, ?_, ?_⟩
  · intro hst hint hwait hreq hack hseq
    rw [radioReceive]
    rw [if_neg (not_not_intro hst)]
    rw [if_pos (And.intro hwait hreq)]
    dsimp only
    rw [if_pos (And.intro hack (And.intro rfl hseq)), if_pos hack]
    constructor
    · exact signalRadioTxDone_out _ _ _ _ hint
    · simp [hint]
  · intro e hst hint hwait hreq hnot
    rw [radioReceive]
    rw [if_neg (not_not_intro hst)]
    rw [if_pos (And.intro hwait hreq)]
    dsimp only
    rw [if_neg hnot]
    exact ⟨_, signalRadioTxDone_out _ _ _ _ hint, by simp [hint]⟩
  · intro hint hsub htime
    rw [platformRadioProcess_eq s hint]
    rw [radioProcessPreempt_no s (by simp [hsub])]
    rw [radioProcessTimer]
    rw [if_pos htime]
    simp only [hsub]
    refine ⟨?_, ?_, ?_⟩
    · rw [signalRadioTxDone_out _ _ _ _ (by simp [hint])]
      rfl
    · simp [hint]
    · trivial

/-- Witness for C5's matching-ACK clause. -/
theorem c5_ack_handling_witness :
    ((c5AckState.sState = OtRadioState.Receive ∨ c5AckState.sState = OtRadioState.Transmit) ∧
        c5AckState.sTxInterfererLevel = 0 ∧ c5AckState.sTxWait = true ∧
        c5AckState.sTransmitFrame.mIsAckRequested = true ∧
        c5AckState.sReceiveFrame.mIsAck = true ∧
        c5AckState.sReceiveFrame.mSequence = c5AckState.sTransmitFrame.mSequence) ∧
      (radioReceive c5AckState OtError.NONE).2 =
        [RadioOutput.txDone c5AckState.sTransmitFrame
          (some { c5AckState.sReceiveFrame with mTimestamp := c5AckState.sReceiveTimestamp })
          OtError.NONE] ∧
      (radioReceive c5AckState OtError.NONE).1.sTxWait = false :=
  ⟨⟨Or.inr (by decide), by decide, by decide, by decide, by decide, by decide⟩,
    (c5_ack_handling c5AckState).1 (Or.inr (by decide)) (by decide) (by decide) (by decide)
      (by decide) (by decide)⟩

/-- **C6.** `otPlatRadioSleep`: during any RX sub-state the call returns
`BUSY`, sets the delayed-sleep flag and leaves the coarse state (and
sub-state) unchanged; otherwise from `Sleep` or `Receive` it returns `NONE`
and enters `Sleep`; in all remaining cases it returns `INVALID_STATE` and
changes nothing. When a sleep was deferred, completing the RX sequence —
either an `RX_DONE` that requires no ACK, or the end of the ACK
transmission — moves the radio to `Sleep` automatically. -/
theorem c6_sleep_behaviour (s : RadioState) :
    (s.sSubState = RadioSubState.RX_FRAME_ONGOING ∨
        s.sSubState = RadioSubState.RX_ACK_TX_ONGOING ∨
        s.sSubState = RadioSubState.RX_AIFS_WAIT →
      (otPlatRadioSleep s).1 = OtError.BUSY ∧
      (otPlatRadioSleep s).2.sDelaySleep = true ∧
      (otPlatRadioSleep s).2.sState = s.sState ∧
      (otPlatRadioSleep s).2.sSubState = s.sSubState) ∧
    (¬(s.sSubState = RadioSubState.RX_FRAME_ONGOING ∨
        s.sSubState = RadioSubState.RX_ACK_TX_ONGOING ∨
        s.sSubState = RadioSubState.RX_AIFS_WAIT) →
      (s.sState = OtRadioState.Sleep ∨ s.sState = OtRadioState.Receive) →
      (otPlatRadioSleep s).1 = OtError.NONE ∧
      (otPlatRadioSleep s).2.sState = OtRadioState.Sleep ∧
      (otPlatRadioSleep s).2.sDelaySleep = false) ∧
    (¬(s.sSubState = RadioSubState.RX_FRAME_ONGOING ∨
        s.sSubState = RadioSubState.RX_ACK_TX_ONGOING ∨
        s.sSubState = RadioSubState.RX_AIFS_WAIT) →
      ¬(s.sState = OtRadioState.Sleep ∨ s.sState = OtRadioState.Receive) →
      (otPlatRadioSleep s).1 = OtError.INVALID_STATE ∧
      (otPlatRadioSleep s).2 = s) ∧
    (∀ (f : Frame) (p : Int) (e : OtError),
      s.sSubState = RadioSubState.RX_FRAME_ONGOING → s.sDelaySleep = true →
      ¬(f.mIsAckRequested = true ∧ f.mIsAck = false ∧ f.mAddressedToMe = true ∧
          e = OtError.NONE) →
      (platformRadioRxDone s f p e).1.sState = OtRadioState.Sleep ∧
      (platformRadioRxDone s f p e).1.sDelaySleep = false) ∧
    (s.sSubState = RadioSubState.RX_ACK_TX_ONGOING → s.sDelaySleep = true →
      s.sTxInterfererLevel = 0 → ¬platformRadioIsTransmitPending s = true →
      s.time ≥ s.sNextRadioEventTime →
      (platformRadioProcess s).1.sState = OtRadioState.Sleep ∧
      (platformRadioProcess s).1.sDelaySleep = false) := by
  refine ⟨?_, ?_, ?_, ?_, ?_⟩
  · intro hsub
    rw [otPlatRadioSleep]
    rw [if_pos hsub]
    exact ⟨rfl, rfl, rfl, rfl⟩
  · intro hnsub hst
    rw [otPlatRadioSleep]
    rw [if_neg hnsub]
    rw [if_pos hst]
    refine ⟨rfl, ?_, ?_⟩ <;> simp
  · intro hnsub hnst
    rw [otPlatRadioSleep]
    rw [if_neg hnsub]
    rw [if_neg hnst]
    exact ⟨rfl, rfl⟩
  · intro f p e hsub hds hnack
    rw [platformRadioRxDone]
    rw [if_neg (not_not_intro (Or.inl hsub))]
    dsimp only
    rw [if_neg (by
      intro hcon
      exact hnack ⟨hcon.2.1, by simpa using hcon.2.2.1, hcon.2.2.2.1, hcon.2.2.2.2⟩)]
    rw [if_pos hsub]
    have hds2 : (setRadioSubState { s with sReceiveFrame := { f with mRssi := p } }
        RadioSubState.IFS_WAIT s.sTurnaroundTimeUs).sDelaySleep = true := by
      simp [hds]
    have hA : (applyRadioDelayedSleep
        (setRadioSubState { s with sReceiveFrame := { f with mRssi := p } }
          RadioSubState.IFS_WAIT s.sTurnaroundTimeUs)).sState = OtRadioState.Sleep := by
      rw [applyRadioDelayedSleep_sState, if_pos hds2]
    rw [radioReceive]
    rw [if_pos (by simp [hds])]
    exact ⟨hA, by simp⟩
  · intro hsub hds hint hnpend htime
    rw [platformRadioProcess_eq s hint]
    rw [radioProcessPreempt_no s (by simp [hnpend])]
    rw [radioProcessTimer]
    rw [if_pos htime]
    simp only [hsub]
    constructor
    · simp [hds]
    · simp

/-- Witness for C6's BUSY clause during an ongoing frame reception. -/
theorem c6_sleep_behaviour_witness :
    (c6RxState.sSubState = RadioSubState.RX_FRAME_ONGOING ∨
        c6RxState.sSubState = RadioSubState.RX_ACK_TX_ONGOING ∨
        c6RxState.sSubState = RadioSubState.RX_AIFS_WAIT) ∧
      (otPlatRadioSleep c6RxState).1 = OtError.BUSY ∧
      (otPlatRadioSleep c6RxState).2.sDelaySleep = true ∧
      (otPlatRadioSleep c6RxState).2.sState = c6RxState.sState ∧
      (otPlatRadioSleep c6RxState).2.sSubState = c6RxState.sSubState :=
  ⟨Or.inl (by decide), (c6_sleep_behaviour c6RxState).1 (Or.inl (by decide))⟩

/-- **C7.** A pending transmission (coarse state `Transmit` with `tx_wait`
false) while the sub-state is `RX_FRAME_ONGOING`, `RX_AIFS_WAIT` or
`RX_ACK_TX_ONGOING` makes the next `platformRadioProcess` run report
`CHANNEL_ACCESS_FAILURE` for the pending frame immediately, and that run
emits neither a CCA channel-sample request nor a `RADIO_COMM_START` carrying
the transmit buffer. -/
theorem c7_pending_tx_during_rx (s : RadioState)
    (hint : s.sTxInterfererLevel = 0)
    (hpend : platformRadioIsTransmitPending s = true)
    (hsub : s.sSubState = RadioSubState.RX_FRAME_ONGOING ∨
      s.sSubState = RadioSubState.RX_ACK_TX_ONGOING ∨
      s.sSubState = RadioSubState.RX_AIFS_WAIT) :
    RadioOutput.txDone s.sTransmitFrame none OtError.CHANNEL_ACCESS_FAILURE ∈
        (platformRadioProcess s).2 ∧
      ∀ o ∈ (platformRadioProcess s).2,
        (∀ ch d, o ≠ RadioOutput.chanSample ch d) ∧
          ∀ ch f, o ≠ RadioOutput.commStart false ch f := by
  rw [platformRadioProcess_eq s hint]
  rw [radioProcessPreempt_yes s (And.intro hpend hsub)]
  have hout1 := signalRadioTxDone_out s s.sTransmitFrame none
    OtError.CHANNEL_ACCESS_FAILURE hint
  have hsubA := signalRadioTxDone_sSubState s s.sTransmitFrame none
    OtError.CHANNEL_ACCESS_FAILURE hint
  have ht2 : ∀ o ∈ (radioProcessTimer
      (signalRadioTxDone s s.sTransmitFrame none OtError.CHANNEL_ACCESS_FAILURE).1).2,
      (∀ ch d, o ≠ RadioOutput.chanSample ch d) ∧
        ∀ ch f, o ≠ RadioOutput.commStart false ch f := by
    rw [radioProcessTimer]
    split
    · rcases hsub with h | h | h <;>
        simp only [hsubA, h] <;>
        simp [radioTransmit]
    · simp
  constructor
  · rw [hout1]
    simp
  · intro o ho
    rw [hout1] at ho
    simp only [List.mem_append, List.mem_singleton] at ho
    rcases ho with ho | ho
    · subst ho
      exact ⟨fun ch d => by simp, fun ch f => by simp⟩
    · exact ht2 o ho

/-- Witness for C7 during an ongoing frame reception. -/
theorem c7_pending_tx_during_rx_witness :
    c7PendState.sTxInterfererLevel = 0 ∧
      platformRadioIsTransmitPending c7PendState = true ∧
      (c7PendState.sSubState = RadioSubState.RX_FRAME_ONGOING ∨
        c7PendState.sSubState = RadioSubState.RX_ACK_TX_ONGOING ∨
        c7PendState.sSubState = RadioSubState.RX_AIFS_WAIT) ∧
      RadioOutput.txDone c7PendState.sTransmitFrame none OtError.CHANNEL_ACCESS_FAILURE ∈
        (platformRadioProcess c7PendState).2 :=
  ⟨by decide, by decide, Or.inl (by decide),
    (c7_pending_tx_during_rx c7PendState (by decide) (by decide) (Or.inl (by decide))).1⟩

/-- **C10.** Setting `TX_INTERFERER` stores the uint8-truncated value capped
at 100, so the level is always in [0, 100]; any positive resulting level
switches the turnaround time to the Wi-Fi slot time (9 µs) and a zero level
restores the 802.15.4 default (40 µs). -/
theorem c10_interferer_param (s : RadioState) (a : AlarmState) (v : Int) :
    (platformRadioRfSimParamSet s a RfSimParam.TX_INTERFERER v).1.sTxInterfererLevel ≤ 100 ∧
      (toUint8 v > 100 →
        (platformRadioRfSimParamSet s a RfSimParam.TX_INTERFERER v).1.sTxInterfererLevel = 100) ∧
      (toUint8 v ≤ 100 →
        (platformRadioRfSimParamSet s a RfSimParam.TX_INTERFERER v).1.sTxInterfererLevel =
          toUint8 v) ∧
      (0 < (platformRadioRfSimParamSet s a RfSimParam.TX_INTERFERER v).1.sTxInterfererLevel →
        (platformRadioRfSimParamSet s a RfSimParam.TX_INTERFERER v).1.sTurnaroundTimeUs =
          OT_RADIO_WIFI_SLOT_TIME_US) ∧
      ((platformRadioRfSimParamSet s a RfSimParam.TX_INTERFERER v).1.sTxInterfererLevel = 0 →
        (platformRadioRfSimParamSet s a RfSimParam.TX_INTERFERER v).1.sTurnaroundTimeUs =
          RFSIM_TURNAROUND_TIME_US) := by
  simp only [platformRadioRfSimParamSet]
  split_ifs <;> simp_all <;> omega

/-- Witness for C10 at the out-of-range value 200. -/
theorem c10_interferer_param_witness :
    toUint8 200 > 100 ∧
      (platformRadioRfSimParamSet baseRadio platformAlarmInit RfSimParam.TX_INTERFERER
          200).1.sTxInterfererLevel = 100 ∧
      (platformRadioRfSimParamSet baseRadio platformAlarmInit RfSimParam.TX_INTERFERER
          200).1.sTurnaroundTimeUs = OT_RADIO_WIFI_SLOT_TIME_US :=
  ⟨by decide,
    (c10_interferer_param baseRadio platformAlarmInit 200).2.1 (by decide),
    (c10_interferer_param baseRadio platformAlarmInit 200).2.2.2.1 (by
      have := (c10_interferer_param baseRadio platformAlarmInit 200).2.1 (by decide)
      omega)⟩

theorem xor_mod_two (a b : Nat) : (a ^^^ b) % 2 = a % 2 ^^^ b % 2 := by
  rw [← Nat.and_one_is_mod, ← Nat.and_one_is_mod, ← Nat.and_one_is_mod,
    Nat.and_xor_distrib_right]

theorem xor_div_two (a b : Nat) : (a ^^^ b) / 2 = a / 2 ^^^ b / 2 := by
  rw [← Nat.shiftRight_one, ← Nat.shiftRight_one, ← Nat.shiftRight_one]
  apply Nat.eq_of_testBit_eq
  intro i
  simp [Nat.testBit_shiftRight, Nat.testBit_xor]

theorem kermitRound_linear (a b : Nat) :
    kermitRound (a ^^^ b) = kermitRound a ^^^ kermitRound b := by
  unfold kermitRound
  rcases Nat.mod_two_eq_zero_or_one a with ha | ha <;>
    rcases Nat.mod_two_eq_zero_or_one b with hb | hb <;>
    rw [xor_mod_two, ha, hb]
  · rw [if_neg (by decide), if_neg (by omega), if_neg (by omega), xor_div_two]
  · rw [if_pos (by decide), if_neg (by omega), if_pos (by omega), xor_div_two,
      Nat.xor_assoc]
  · rw [if_pos (by decide), if_pos (by omega), if_neg (by omega), xor_div_two,
      Nat.xor_assoc, Nat.xor_comm (b / 2), ← Nat.xor_assoc]
  · rw [if_neg (by decide), if_pos (by omega), if_pos (by omega), xor_div_two,
      Nat.xor_comm (b / 2), ← Nat.xor_assoc, Nat.xor_assoc (a / 2),
      Nat.xor_self, Nat.xor_zero]

theorem round8_linear (a b : Nat) :
    kermitRound^[8] (a ^^^ b) = kermitRound^[8] a ^^^ kermitRound^[8] b := by
  have : ∀ n a b, kermitRound^[n] (a ^^^ b) = kermitRound^[n] a ^^^ kermitRound^[n] b := by
    intro n
    induction n with
    | zero => intro a b; simp
    | succ n ih =>
        intro a b
        rw [Function.iterate_succ_apply, Function.iterate_succ_apply,
          Function.iterate_succ_apply, kermitRound_linear, ih]
  exact this 8 a b

theorem round8_mul256 (h : Nat) : kermitRound^[8] (h * 256) = h := by
  have step : ∀ x : Nat, x % 2 = 0 → kermitRound x = x / 2 := by
    intro x hx
    unfold kermitRound
    rw [if_neg (by omega)]
  have e1 : kermitRound (h * 256) = h * 128 := by rw [step _ (by omega)]; omega
  have e2 : kermitRound (h * 128) = h * 64 := by rw [step _ (by omega)]; omega
  have e3 : kermitRound (h * 64) = h * 32 := by rw [step _ (by omega)]; omega
  have e4 : kermitRound (h * 32) = h * 16 := by rw [step _ (by omega)]; omega
  have e5 : kermitRound (h * 16) = h * 8 := by rw [step _ (by omega)]; omega
  have e6 : kermitRound (h * 8) = h * 4 := by rw [step _ (by omega)]; omega
  have e7 : kermitRound (h * 4) = h * 2 := by rw [step _ (by omega)]; omega
  have e8 : kermitRound (h * 2) = h := by rw [step _ (by omega)]; omega
  show kermitRound (kermitRound (kermitRound (kermitRound (kermitRound (kermitRound
    (kermitRound (kermitRound (h * 256)))))))) = h
  rw [e1, e2, e3, e4, e5, e6, e7, e8]

theorem testBit_255 (i : Nat) : (255 : Nat).testBit i = decide (i < 8) := by
  rw [show (255 : Nat) = 2 ^ 8 - 1 from rfl, Nat.testBit_two_pow_sub_one]

theorem split_bits (x : Nat) : x = ((x >>> 8) <<< 8) ^^^ (x &&& 255) := by
  apply Nat.eq_of_testBit_eq
  intro i
  rw [Nat.testBit_xor, Nat.testBit_shiftLeft, Nat.testBit_and, testBit_255]
  rcases Nat.lt_or_ge i 8 with hi | hi
  · rw [decide_eq_false (by omega), decide_eq_true hi]
    simp
  · rw [decide_eq_true hi, decide_eq_false (by omega), Nat.testBit_shiftRight,
      show 8 + (i - 8) = i from by omega]
    simp

theorem round8_split (x : Nat) :
    kermitRound^[8] x = (x >>> 8) ^^^ kermitRound^[8] (x &&& 255) := by
  conv_lhs => rw [split_bits x]
  rw [round8_linear, Nat.shiftLeft_eq, round8_mul256]

set_option maxRecDepth 20000 in
theorem table_eq : sFcsTable = (List.range 256).map (fun b => kermitRound^[8] b) := by decide

theorem table_getD (i : Nat) (h : i < 256) :
    sFcsTable.getD i 0 = kermitRound^[8] i := by
  rw [table_eq, List.getD_eq_getElem?_getD, List.getElem?_map, List.getElem?_range h]
  rfl

theorem crc_step_eq (c b : Nat) (hb : b < 256) :
    crc16_citt c b = kermitByteStep c b := by
  unfold crc16_citt kermitByteStep
  rw [round8_split (c ^^^ b)]
  have hb8 : b >>> 8 = 0 := by
    rw [Nat.shiftRight_eq_div_pow]
    omega
  have hsh : (c ^^^ b) >>> 8 = c >>> 8 := by
    apply Nat.eq_of_testBit_eq
    intro i
    have hbf : b.testBit (8 + i) = false := by
      rw [← Nat.testBit_shiftRight, hb8, Nat.zero_testBit]
    rw [Nat.testBit_shiftRight, Nat.testBit_shiftRight, Nat.testBit_xor, hbf]
    simp
  have hlt : (c ^^^ b) &&& 255 < 256 := by
    have h := @Nat.and_le_right (c ^^^ b) 255
    omega
  rw [hsh, table_getD _ hlt]

theorem kermitRound_lt (c : Nat) (h : c < 2 ^ 16) : kermitRound c < 2 ^ 16 := by
  unfold kermitRound
  split
  · exact Nat.xor_lt_two_pow (by omega) (by norm_num)
  · omega

theorem round8_lt (c : Nat) (h : c < 2 ^ 16) : kermitRound^[8] c < 2 ^ 16 := by
  have h8 : ∀ n x, x < 2 ^ 16 → kermitRound^[n] x < 2 ^ 16 := by
    intro n
    induction n with
    | zero => intro x hx; simpa using hx
    | succ n ih =>
        intro x hx
        rw [Function.iterate_succ_apply]
        exact ih _ (kermitRound_lt x hx)
  exact h8 8 c h

theorem sFcsTable_getD_lt (i : Nat) : sFcsTable.getD i 0 < 2 ^ 16 := by
  rcases Nat.lt_or_ge i 256 with hi | hi
  · rw [table_getD i hi]
    exact round8_lt i (by omega)
  · rw [List.getD_eq_getElem?_getD, List.getElem?_eq_none (by
      rw [table_eq]; simpa using hi)]
    norm_num

theorem crc16_citt_lt (c b : Nat) (h : c < 2 ^ 16) : crc16_citt c b < 2 ^ 16 := by
  unfold crc16_citt
  apply Nat.xor_lt_two_pow _ (sFcsTable_getD_lt _)
  rw [Nat.shiftRight_eq_div_pow]
  omega

theorem foldl_crc_eq (bytes : List Nat) (hb : ∀ x ∈ bytes, x < 256) :
    ∀ c, c < 2 ^ 16 → bytes.foldl crc16_citt c = bytes.foldl kermitByteStep c := by
  induction bytes with
  | nil => intro c _; rfl
  | cons x xs ih =>
      intro c hc
      rw [List.foldl_cons, List.foldl_cons, crc_step_eq c x (hb x (by simp)),
        ← crc_step_eq c x (hb x (by simp))]
      exact ih (fun y hy => hb y (by simp [hy])) _ (crc16_citt_lt c x hc)

theorem take_set_of_le (l : List Nat) (n i v : Nat) (h : n ≤ i) :
    (l.set i v).take n = l.take n := by
  apply List.ext_getElem
  · simp
  · intro j h1 h2
    have hij : i ≠ j := by
      have := h1
      simp at this
      omega
    simp only [List.getElem_take]
    rw [List.getElem_set_ne hij]

theorem getD_set_self (l : List Nat) (i v d : Nat) (h : i < l.length) :
    (l.set i v).getD i d = v := by
  simp [List.getD_eq_getElem?_getD, List.getElem?_set_self, h]

theorem getD_set_ne (l : List Nat) (i j v d : Nat) (hne : i ≠ j) :
    (l.set i v).getD j d = l.getD j d := by
  simp [List.getD_eq_getElem?_getD, List.getElem?_set_ne hne]

/-- **C9.** For every frame image handed to `radioComputeCrc` (as every
serialized data frame and ACK is), the bytes before the FCS are unchanged
and the last two PSDU bytes hold the CRC-16/Kermit (poly 0x1021, reflected,
init 0, xor 0) of those bytes, stored little-endian (low byte at index
length−2). -/
theorem c9_fcs_is_kermit_crc (mPsdu : List Nat) (aLength : Nat)
    (hbytes : ∀ b ∈ mPsdu, b < 256) (h2 : 2 ≤ aLength) (hlen : aLength ≤ mPsdu.length) :
    (radioComputeCrc mPsdu aLength).take (aLength - 2) = mPsdu.take (aLength - 2) ∧
      (radioComputeCrc mPsdu aLength).getD (aLength - 2) 0 =
        crc16Kermit (mPsdu.take (aLength - 2)) % 256 ∧
      (radioComputeCrc mPsdu aLength).getD (aLength - 1) 0 =
        crc16Kermit (mPsdu.take (aLength - 2)) / 256 := by
  have hcrc : (mPsdu.take (aLength - 2)).foldl crc16_citt 0 =
      crc16Kermit (mPsdu.take (aLength - 2)) := by
    rw [foldl_crc_eq _ (fun x hx => hbytes x (List.mem_of_mem_take hx)) 0 (by norm_num)]
    rfl
  have hk1 : aLength - 1 = (aLength - 2) + 1 := by omega
  refine ⟨?_, ?_, ?_⟩
  · rw [radioComputeCrc]
    rw [take_set_of_le _ _ _ _ (by omega), take_set_of_le _ _ _ _ (by omega)]
  · rw [radioComputeCrc]
    rw [getD_set_ne _ _ _ _ _ (by omega), getD_set_self _ _ _ _ (by omega), hcrc]
    rw [show (255 : Nat) = 2 ^ 8 - 1 from rfl, Nat.and_pow_two_sub_one_eq_mod]
  · rw [radioComputeCrc]
    rw [hk1, getD_set_self _ _ _ _ (by simpa using by omega), hcrc,
      Nat.shiftRight_eq_div_pow]

set_option maxRecDepth 20000 in
/-- Sanity check: the KERMIT check value over the bytes of "123456789". -/
theorem crc16Kermit_check :
    crc16Kermit [0x31, 0x32, 0x33, 0x34, 0x35, 0x36, 0x37, 0x38, 0x39] = 0x2189 := by
  decide

set_option maxRecDepth 40000 in
/-- Witness for C9 on the 5-byte PSDU `[1, 2, 3, 0, 0]`. -/
theorem c9_fcs_is_kermit_crc_witness :
    (∀ b ∈ ([1, 2, 3, 0, 0] : List Nat), b < 256) ∧ 2 ≤ 5 ∧
      5 ≤ ([1, 2, 3, 0, 0] : List Nat).length ∧
      ((radioComputeCrc [1, 2, 3, 0, 0] 5).take (5 - 2) =
          ([1, 2, 3, 0, 0] : List Nat).take (5 - 2) ∧
        (radioComputeCrc [1, 2, 3, 0, 0] 5).getD (5 - 2) 0 =
          crc16Kermit (([1, 2, 3, 0, 0] : List Nat).take (5 - 2)) % 256 ∧
        (radioComputeCrc [1, 2, 3, 0, 0] 5).getD (5 - 1) 0 =
          crc16Kermit (([1, 2, 3, 0, 0] : List Nat).take (5 - 2)) / 256) :=
  ⟨by decide, by norm_num, by decide,
    c9_fcs_is_kermit_crc [1, 2, 3, 0, 0] 5 (by decide) (by norm_num) (by decide)⟩

end OtRfsim
